import Mathlib

/-!
# StatefulSet lifecycle examples: create, update under optimistic concurrency, delete

Shallow embedding of

* `src/create-update-delete-statefulset/main.go` (typed client, namespace `Typed`),
* `src/dynamic-create-update-delete-statefulset/main.go` (dynamic client, namespace `Dynamic`).

The control plane is an external collaborator.  It is represented by a `Transport`:
for every request, a reply that may depend on everything sent and answered before.
Each program threads the chronological list of exchanges (`History`) through its
calls, so that "which requests were sent, in which order, with which payload" can be
read off the final history.

The programs end either by returning or by a Go `panic`; `Outcome` records which.
Text written to standard output and the sleeps between retry attempts have no effect
on the requests sent and are left out.
-/

set_option autoImplicit false
set_option linter.dupNamespace false

/-! ## Go errors -/

/-- Failure kinds a control-plane call can report (the reason carried by an API status
error, or a connection-level failure). -/
inductive Reason
  | NotFound
  | AlreadyExists
  | Conflict
  | ConnectionError
  | Unauthorized
  | Timeout
  deriving DecidableEq, Repr

/-- Go `error` values that occur in the two programs: an error reported by the client that
wraps no context error (`status`); an error reported by the client that wraps
`context.DeadlineExceeded` or `context.Canceled`, such as a client-side timeout or a
cancelled request (`interrupted`); or an error built with `fmt.Errorf` from a format
without `%w` (`errorf`), which keeps only the text. -/
inductive GoError
  | status (reason : Reason) (message : String)
  | interrupted (text : String)
  | errorf (text : String)
  deriving DecidableEq, Repr

namespace GoError

/-- The `Error()` method: the text of the error. -/
def Error : GoError → String
  | status _ message => message
  | interrupted text => text
  | errorf text => text

end GoError

namespace fmt

/-- The call `fmt.Errorf(format, err)` where `format` is a fixed text followed by `%v`: a
new error whose text is the fixed text followed by `err.Error()`.  The argument is not
wrapped (no `%w`). -/
def Errorf (fixed : String) (err : GoError) : GoError :=
  GoError.errorf (fixed ++ err.Error)

end fmt

namespace apierrors

/-- The predicate `errors.IsConflict` of `k8s.io/apimachinery/pkg/api/errors`: true exactly
for a status error whose reason is `Conflict`.  An error that wraps a context error, or
one made by `fmt.Errorf` with `%v`, carries no status, so it is never a conflict. -/
def IsConflict : GoError → Bool
  | GoError.status Reason.Conflict _ => true
  | _ => false

end apierrors

/-! ## Outcomes, exchanges and transports -/

/-- How a Go function call ends: it returns a value, or it panics with a value (always an
`error` in these programs). -/
inductive Outcome (β : Type)
  | returns (v : β)
  | panics (v : GoError)
  deriving Repr

/-- The three `metav1.DeletionPropagation` policies. -/
inductive DeletionPropagation
  | Orphan
  | Background
  | Foreground
  deriving DecidableEq, Repr

/-- One request sent to the control plane together with its reply.  `α` is the object
representation (a typed `StatefulSet`, or an unstructured document). -/
inductive Exchange (α : Type)
  | Create (obj : α) (reply : Except GoError α)
  | Get (name : String) (reply : Except GoError α)
  | Update (obj : α) (reply : Except GoError α)
  | List (reply : Except GoError (List α))
  | Delete (name : String) (policy : DeletionPropagation) (reply : Option GoError)

/-- The exchanges made so far, oldest first. -/
abbrev History (α : Type) := List (Exchange α)

/-- The client interface the programs call (`v1.StatefulSetInterface`, respectively the
namespaced resource client of `dynamic.Interface`): each operation answers from the
history of earlier exchanges and the request's arguments.  `Delete` answers `none` for a
nil error. -/
structure Transport (α : Type) where
  Create : History α → α → Except GoError α
  Get : History α → String → Except GoError α
  Update : History α → α → Except GoError α
  Delete : History α → String → DeletionPropagation → Option GoError
  List : History α → Except GoError (List α)

namespace Exchange

variable {α : Type}

/-- Is the exchange a `Get` request? -/
def isGet : Exchange α → Bool
  | Get _ _ => true
  | _ => false

/-- Is the exchange an `Update` request? -/
def isUpdate : Exchange α → Bool
  | Update _ _ => true
  | _ => false

/-- The error of the reply, if the request failed. -/
def replyError : Exchange α → Option GoError
  | Create _ (.error e) => some e
  | Get _ (.error e) => some e
  | Update _ (.error e) => some e
  | List (.error e) => some e
  | Delete _ _ (some e) => some e
  | _ => none

end Exchange

/-- Number of `Get` requests in a list of exchanges. -/
def countGets {α : Type} (h : History α) : Nat := h.countP Exchange.isGet

/-- Number of `Update` requests in a list of exchanges. -/
def countUpdates {α : Type} (h : History α) : Nat := h.countP Exchange.isUpdate

/-- A Go function that talks to the control plane: from the history so far to its outcome
and the extended history. -/
abbrev ClientAction (α β : Type) := History α → Outcome β × History α

namespace wait

/-- The `wait.Backoff` schedule.  `Steps` bounds the number of attempts; `Duration` (in
nanoseconds) is the base sleep.  `Factor`, `Jitter` and `Cap` only shape the length of the
sleeps (with `Cap` unset, as in `DefaultRetry`) and are not represented. -/
structure Backoff where
  Steps : Int
  Duration : Nat
  deriving DecidableEq, Repr

/-- The predicate `wait.Interrupted` on the errors of the client: true for an error that
wraps `context.DeadlineExceeded` or `context.Canceled`.  (It is also true for the timeout
value of the `wait` package itself, which is kept apart as `Failure.ErrWaitTimeout`.) -/
def Interrupted : GoError → Bool
  | GoError.interrupted _ => true
  | _ => false

/-- What `wait.ExponentialBackoff` returns as its `error`: the package's own timeout
value, or the error its condition returned. -/
inductive Failure
  | ErrWaitTimeout
  | condition (e : GoError)
  deriving DecidableEq, Repr

/-- The loop of `wait.ExponentialBackoff`, by the number of steps left:
`for backoff.Steps > 0 { if ok, err := condition(); err != nil || ok { return err };
if backoff.Steps == 1 { break }; time.Sleep(backoff.Step()) }; return ErrWaitTimeout`,
where `backoff.Step()` decrements `Steps`.  A panic of the condition propagates. -/
def ExponentialBackoffLoop {σ : Type}
    (condition : σ → Outcome (Bool × Option GoError) × σ) :
    Nat → σ → Outcome (Option Failure) × σ
  | 0, s => (Outcome.returns (some Failure.ErrWaitTimeout), s)
  | steps + 1, s =>
    match condition s with
    | (Outcome.panics v, s1) => (Outcome.panics v, s1)
    | (Outcome.returns (_, some err), s1) => (Outcome.returns (some (Failure.condition err)), s1)
    | (Outcome.returns (true, none), s1) => (Outcome.returns none, s1)
    | (Outcome.returns (false, none), s1) =>
      if steps + 1 = 1 then (Outcome.returns (some Failure.ErrWaitTimeout), s1)
      else ExponentialBackoffLoop condition steps s1

/-- The function `wait.ExponentialBackoff`. -/
def ExponentialBackoff {σ : Type} (backoff : Backoff)
    (condition : σ → Outcome (Bool × Option GoError) × σ) (s : σ) :
    Outcome (Option Failure) × σ :=
  ExponentialBackoffLoop condition backoff.Steps.toNat s

end wait

namespace retry

/-- The schedule `retry.DefaultRetry`: `Steps: 5, Duration: 10 * time.Millisecond`
(`Factor: 1.0, Jitter: 0.1`). -/
def DefaultRetry : wait.Backoff := { Steps := 5, Duration := 10 * 1000000 }

/-- The condition closure built inside `retry.OnError`.  Its captured variable `lastErr`
is threaded as the second component of the state:
`err := fn(); switch { case err == nil: return true, nil;
case retriable(err): lastErr = err; return false, nil; default: return false, err }`. -/
def OnErrorCondition {α : Type} (retriable : GoError → Bool) (fn : ClientAction α (Option GoError)) :
    History α × Option GoError → Outcome (Bool × Option GoError) × (History α × Option GoError)
  | (h, lastErr) =>
    match fn h with
    | (Outcome.panics v, h1) => (Outcome.panics v, (h1, lastErr))
    | (Outcome.returns none, h1) => (Outcome.returns (true, none), (h1, lastErr))
    | (Outcome.returns (some err), h1) =>
      if retriable err then (Outcome.returns (false, none), (h1, some err))
      else (Outcome.returns (false, some err), (h1, lastErr))

/-- The three behaviours of the end of `retry.OnError` across releases of client-go.
All of them return `lastErr` when the schedule is exhausted; they differ on a
non-retriable error `err` of `fn`:
* `ownTimeoutOnly` (releases up to v0.33): `if err == wait.ErrWaitTimeout { err = lastErr }`,
  so `err` is returned as it is;
* `anyInterrupted` (releases v0.34 to v0.36): `if wait.Interrupted(err) { err = lastErr }`,
  so an interrupted `err` is replaced by `lastErr`, which is nil when no attempt
  conflicted before;
* `interruptedAfterRetry` (release v0.37): an interrupted `err` is replaced by `lastErr`
  only when an earlier attempt conflicted. -/
inductive Release
  | ownTimeoutOnly
  | anyInterrupted
  | interruptedAfterRetry
  deriving DecidableEq, Repr

/-- What `retry.OnError` returns when `fn` returned the non-retriable error `err` and
`lastErr` is the last retriable error seen before, by release. -/
def Release.onConditionError : Release → GoError → Option GoError → Option GoError
  | Release.ownTimeoutOnly, err, _ => some err
  | Release.anyInterrupted, err, lastErr => if wait.Interrupted err then lastErr else some err
  | Release.interruptedAfterRetry, err, lastErr =>
    if wait.Interrupted err then
      match lastErr with
      | some earlier => some earlier
      | none => some err
    else some err

/-- The tail of `retry.OnError`: the error of the backoff is returned, except that the
timeout of an exhausted schedule is replaced by `lastErr`, and that an error of `fn` is
treated as the release says (`Release.onConditionError`). -/
def OnErrorResult {α : Type} (release : Release) :
    Outcome (Option wait.Failure) × (History α × Option GoError) →
    Outcome (Option GoError) × History α
  | (Outcome.panics v, (h, _)) => (Outcome.panics v, h)
  | (Outcome.returns none, (h, _)) => (Outcome.returns none, h)
  | (Outcome.returns (some wait.Failure.ErrWaitTimeout), (h, lastErr)) => (Outcome.returns lastErr, h)
  | (Outcome.returns (some (wait.Failure.condition err)), (h, lastErr)) =>
    (Outcome.returns (release.onConditionError err lastErr), h)

/-- The function `retry.OnError`. -/
def OnError {α : Type} (release : Release) (backoff : wait.Backoff) (retriable : GoError → Bool)
    (fn : ClientAction α (Option GoError)) : ClientAction α (Option GoError) :=
  fun h =>
    OnErrorResult release
      (wait.ExponentialBackoff backoff (OnErrorCondition retriable fn) (h, none))

/-- The function `retry.RetryOnConflict`: `return OnError(backoff, errors.IsConflict, fn)`. -/
def RetryOnConflict {α : Type} (release : Release) (backoff : wait.Backoff)
    (fn : ClientAction α (Option GoError)) : ClientAction α (Option GoError) :=
  OnError release backoff apierrors.IsConflict fn

end retry

/-! ## Typed objects (`k8s.io/api`), restricted to the fields the programs name, the
object metadata and the status -/

namespace metav1

/-- The struct `metav1.ObjectMeta`: identity and version token of an object. -/
structure ObjectMeta where
  Name : String := ""
  Namespace : String := ""
  UID : String := ""
  ResourceVersion : String := ""
  Generation : Int := 0
  Labels : List (String × String) := []
  Annotations : List (String × String) := []
  deriving DecidableEq, Repr

/-- The struct `metav1.LabelSelector`. -/
structure LabelSelector where
  MatchLabels : List (String × String) := []
  deriving DecidableEq, Repr

end metav1

namespace corev1

/-- The constant `corev1.PullIfNotPresent`. -/
def PullIfNotPresent : String := "IfNotPresent"

/-- The struct `corev1.ContainerPort`. -/
structure ContainerPort where
  Name : String := ""
  ContainerPort : Int := 0
  Protocol : String := ""
  deriving DecidableEq, Repr

/-- The struct `corev1.Container`. -/
structure Container where
  Name : String := ""
  Image : String := ""
  Args : List String := []
  Ports : List ContainerPort := []
  ImagePullPolicy : String := ""
  deriving DecidableEq, Repr

/-- The struct `corev1.PodSpec`. -/
structure PodSpec where
  Containers : List Container := []
  deriving DecidableEq, Repr

/-- The struct `corev1.PodTemplateSpec`. -/
structure PodTemplateSpec where
  ObjectMeta : metav1.ObjectMeta := {}
  Spec : PodSpec := {}
  deriving DecidableEq, Repr

end corev1

namespace appsv1

/-- The struct `appsv1.StatefulSetSpec`; `Replicas` is a `*int32`. -/
structure StatefulSetSpec where
  Replicas : Option Int := none
  Selector : Option metav1.LabelSelector := none
  Template : corev1.PodTemplateSpec := {}
  ServiceName : String := ""
  deriving DecidableEq, Repr

/-- The struct `appsv1.StatefulSetStatus` (server-populated). -/
structure StatefulSetStatus where
  ObservedGeneration : Int := 0
  Replicas : Int := 0
  ReadyReplicas : Int := 0
  deriving DecidableEq, Repr

/-- The struct `appsv1.StatefulSet`. -/
structure StatefulSet where
  ObjectMeta : metav1.ObjectMeta := {}
  Spec : StatefulSetSpec := {}
  Status : StatefulSetStatus := {}
  deriving DecidableEq, Repr

end appsv1

/-! ## `src/create-update-delete-statefulset/main.go` -/

namespace Typed

/-- The object literal built at the top of `createStatefulSet`. -/
def statefulSet : appsv1.StatefulSet :=
  { ObjectMeta := { Name := "book-server" },
    Spec :=
      { Replicas := some 2,
        ServiceName := "book-server",
        Selector := some { MatchLabels := [("app", "book-server")] },
        Template :=
          { ObjectMeta := { Labels := [("app", "book-server")] },
            Spec :=
              { Containers :=
                  [{ Name := "book-server",
                     Image := "almasood/book-server:latest",
                     ImagePullPolicy := corev1.PullIfNotPresent,
                     Ports := [{ ContainerPort := 3000 }],
                     Args := ["serve", "--port=3000", "--secret=secret", "--auth=true"] }] } } } }

/-- The assignment `result.Spec.Replicas = ptr.To[int32](1)`. -/
def setReplicas (result : appsv1.StatefulSet) : appsv1.StatefulSet :=
  { result with Spec := { result.Spec with Replicas := some 1 } }

/-- The closure passed to `retry.RetryOnConflict` in `updateStatefulSet`: `Get`; on an
error panic with a formatted error; set the replica count; `Update`; return its error. -/
def updateAttempt (statefulSetsClient : Transport appsv1.StatefulSet) :
    ClientAction appsv1.StatefulSet (Option GoError) :=
  fun h =>
    match statefulSetsClient.Get h "book-server" with
    | .error getErr =>
      (Outcome.panics (fmt.Errorf "failed to get latest version of StatefulSet: " getErr),
        h ++ [Exchange.Get "book-server" (.error getErr)])
    | .ok fetched =>
      let h1 := h ++ [Exchange.Get "book-server" (.ok fetched)]
      let result := setReplicas fetched
      match statefulSetsClient.Update h1 result with
      | .error updateErr =>
        (Outcome.returns (some updateErr), h1 ++ [Exchange.Update result (.error updateErr)])
      | .ok updated => (Outcome.returns none, h1 ++ [Exchange.Update result (.ok updated)])

/-- The function `updateStatefulSet`: run the closure under
`retry.RetryOnConflict(retry.DefaultRetry, ...)`;
`if retryErr != nil { panic(fmt.Errorf("update failed: %v", retryErr)) }`. -/
def updateStatefulSet (release : retry.Release)
    (statefulSetsClient : Transport appsv1.StatefulSet) :
    ClientAction appsv1.StatefulSet Unit :=
  fun h =>
    match retry.RetryOnConflict release retry.DefaultRetry
        (updateAttempt statefulSetsClient) h with
    | (Outcome.panics v, h1) => (Outcome.panics v, h1)
    | (Outcome.returns none, h1) => (Outcome.returns (), h1)
    | (Outcome.returns (some retryErr), h1) =>
      (Outcome.panics (fmt.Errorf "update failed: " retryErr), h1)

end Typed

/-! ## Unstructured documents (`k8s.io/apimachinery/pkg/apis/meta/v1/unstructured`) -/

/-- A value of an unstructured document (Go `interface{}` holding JSON data).  A
`map[string]interface{}` is kept as its list of entries; lookups and stores below treat it
as a map (first entry with the key).  `float64` is an uninterpreted leaf. -/
inductive Json
  | null
  | bool (b : Bool)
  | int64 (n : Int)
  | float64 (bits : Nat)
  | string (s : String)
  | slice (items : List Json)
  | map (entries : List (String × Json))

/-- The `Object` of an `unstructured.Unstructured`: a `map[string]interface{}`. -/
abbrev JsonMap := List (String × Json)

namespace JsonMap

/-- The Go map read `val, ok := m[field]`. -/
def lookup : JsonMap → String → Option Json
  | [], _ => none
  | (k, v) :: rest, field => if k = field then some v else lookup rest field

/-- The Go map store `m[field] = value`: replaces the entry if the key is present, adds
one otherwise. -/
def store : JsonMap → String → Json → JsonMap
  | [], field, value => [(field, value)]
  | (k, v) :: rest, field, value =>
    if k = field then (field, value) :: rest else (k, v) :: store rest field value

end JsonMap

namespace unstructured

/-- The helper `jsonPath(fields)`: `"." + strings.Join(fields, ".")`. -/
def jsonPath (fields : List String) : String := "." ++ ".".intercalate fields

/-- The function `setNestedFieldNoCopy(obj, value, fields...)`, for a path of at least
one field (`field` followed by `rest`); `walked` is the part of the path already
descended, used for the error text.  Every field but the last is descended into: an entry
that is a map is entered, a missing entry is created as an empty map, any other entry
gives the error.  The last field is stored.  The Go code stores in place in the nested
maps; here the changed maps are rebuilt on the way back. -/
def setNestedFieldNoCopy (m : JsonMap) (value : Json) (walked : List String) :
    String → List String → Except GoError JsonMap
  | last, [] => .ok (m.store last value)
  | field, next :: rest =>
    match m.lookup field with
    | some (Json.map valMap) =>
      match setNestedFieldNoCopy valMap value (walked ++ [field]) next rest with
      | .ok newMap => .ok (m.store field (Json.map newMap))
      | .error err => .error err
    | some _ =>
      .error (GoError.errorf ("value cannot be set because " ++ jsonPath (walked ++ [field])
        ++ " is not a map[string]interface\x7b\x7d"))
    | none =>
      match setNestedFieldNoCopy [] value (walked ++ [field]) next rest with
      | .ok newMap => .ok (m.store field (Json.map newMap))
      | .error err => .error err

/-- The function `unstructured.SetNestedField(obj, value, fields...)`:
`setNestedFieldNoCopy(obj, runtime.DeepCopyJSONValue(value), fields...)`; the deep copy of
a value is the value. -/
def SetNestedField (obj : JsonMap) (value : Json) (field : String) (rest : List String) :
    Except GoError JsonMap :=
  setNestedFieldNoCopy obj value [] field rest

end unstructured

/-! ## `src/dynamic-create-update-delete-statefulset/main.go` -/

namespace Dynamic

/-- The document literal built at the top of `createStatefulSet`. -/
def statefulSet : JsonMap :=
  [ ("apiVersion", Json.string "apps/v1"),
    ("kind", Json.string "StatefulSet"),
    ("metadata", Json.map [("name", Json.string "book-server")]),
    ("spec", Json.map
      [ ("replicas", Json.int64 2),
        ("selector", Json.map [("matchLabels", Json.map [("app", Json.string "book-server")])]),
        ("serviceName", Json.string "book-server"),
        ("template", Json.map
          [ ("metadata", Json.map [("labels", Json.map [("app", Json.string "book-server")])]),
            ("spec", Json.map
              [ ("containers", Json.slice
                  [ Json.map
                      [ ("name", Json.string "book-server"),
                        ("image", Json.string "almasood/book-server:latest"),
                        ("imagePullPolicy", Json.string "IfNotPresent"),
                        ("ports", Json.slice
                          [ Json.map
                              [ ("name", Json.string "http"),
                                ("protocol", Json.string "TCP"),
                                ("containerPort", Json.int64 80) ] ]),
                        ("args", Json.slice
                          [ Json.string "serve",
                            Json.string "--port=3000",
                            Json.string "--secret=secret",
                            Json.string "--auth=true" ]) ] ]) ]) ]) ]) ]

/-- The local `containers` of the closure in `updateStatefulSet`. -/
def containers : Json :=
  Json.slice
    [ Json.map
        [ ("name", Json.string "book-server"),
          ("image", Json.string "almasood/book-server:latest"),
          ("imagePullPolicy", Json.string "IfNotPresent"),
          ("ports", Json.slice
            [ Json.map
                [ ("name", Json.string "http"),
                  ("protocol", Json.string "TCP"),
                  ("containerPort", Json.int64 80) ] ]) ] ]

/-- The two writes of the closure in `updateStatefulSet`, in order, each followed by
`if err != nil { return err }`: `spec.replicas` becomes `int64(1)`, then
`spec.template.spec.containers` becomes `containers`. -/
def mutate (obj : JsonMap) : Except GoError JsonMap :=
  match unstructured.SetNestedField obj (Json.int64 1) "spec" ["replicas"] with
  | .error err => .error err
  | .ok obj1 =>
    match unstructured.SetNestedField obj1 containers "spec" ["template", "spec", "containers"] with
    | .error err => .error err
    | .ok obj2 => .ok obj2

/-- The closure passed to `retry.RetryOnConflict` in `updateStatefulSet`: `Get`; the two
writes; `Update`; every error is returned. -/
def updateAttempt (client : Transport JsonMap) : ClientAction JsonMap (Option GoError) :=
  fun h =>
    match client.Get h "book-server" with
    | .error err => (Outcome.returns (some err), h ++ [Exchange.Get "book-server" (.error err)])
    | .ok fetched =>
      let h1 := h ++ [Exchange.Get "book-server" (.ok fetched)]
      match mutate fetched with
      | .error err => (Outcome.returns (some err), h1)
      | .ok result =>
        match client.Update h1 result with
        | .error err => (Outcome.returns (some err), h1 ++ [Exchange.Update result (.error err)])
        | .ok updated => (Outcome.returns none, h1 ++ [Exchange.Update result (.ok updated)])

/-- The function `updateStatefulSet`: run the closure under
`retry.RetryOnConflict(retry.DefaultRetry, ...)`; `if retryErr != nil { panic(retryErr) }`. -/
def updateStatefulSet (release : retry.Release) (client : Transport JsonMap) :
    ClientAction JsonMap Unit :=
  fun h =>
    match retry.RetryOnConflict release retry.DefaultRetry (updateAttempt client) h with
    | (Outcome.panics v, h1) => (Outcome.panics v, h1)
    | (Outcome.returns none, h1) => (Outcome.returns (), h1)
    | (Outcome.returns (some retryErr), h1) => (Outcome.panics retryErr, h1)

end Dynamic

/-! ## Vocabulary for statements about runs -/

/-- The retry loop of `retry.RetryOnConflict` around `fn` with `n` steps left, started
from history `h` with `lastErr` as the last conflict seen so far. -/
def retryLoop {α : Type} (release : retry.Release) (fn : ClientAction α (Option GoError))
    (n : Nat) (h : History α) (lastErr : Option GoError) :
    Outcome (Option GoError) × History α :=
  retry.OnErrorResult release (wait.ExponentialBackoffLoop
    (retry.OnErrorCondition apierrors.IsConflict fn) n (h, lastErr))

/-- A statement holds at each of the three releases of the retry helper. -/
def atEveryRelease (p : retry.Release → Prop) : Prop :=
  p retry.Release.ownTimeoutOnly ∧ p retry.Release.anyInterrupted ∧
    p retry.Release.interruptedAfterRetry

/-- An exchange whose reply is an error other than a conflict. -/
def isFatal {α : Type} (e : Exchange α) : Bool :=
  match e.replyError with
  | some err => !apierrors.IsConflict err
  | none => false

/-- No exchange follows one whose reply is a non-conflict error. -/
def fatalOnlyLast {α : Type} : History α → Bool
  | [] => true
  | e :: rest => (!isFatal e || rest.isEmpty) && fatalOnlyLast rest

/-- Every `Update` of the run comes right after a successful `Get`, and the object it
submits stands in relation `rel` to the object that `Get` fetched (`rel fetched
submitted`).  The first argument is the object fetched by the exchange just before, if
that was a successful `Get`. -/
def updatesSubmit {α : Type} (rel : α → α → Prop) : Option α → History α → Prop
  | _, [] => True
  | _, Exchange.Get _ (.ok fetched) :: rest => updatesSubmit rel (some fetched) rest
  | some fetched, Exchange.Update obj _ :: rest => rel fetched obj ∧ updatesSubmit rel none rest
  | none, Exchange.Update _ _ :: _ => False
  | _, _ :: rest => updatesSubmit rel none rest

/-- The value reached in a document by a path of at least one field (`field` followed
by `rest`), walking maps only, as `unstructured.NestedFieldNoCopy` walks; `none` when an
entry on the way is missing or is not a map. -/
def fieldAt : JsonMap → String → List String → Option Json
  | m, field, [] => m.lookup field
  | m, field, next :: rest =>
    match m.lookup field with
    | some (Json.map sub) => fieldAt sub next rest
    | _ => none

/-- Two paths of which neither is a beginning of the other: neither lies on the way to,
at, or below the other. -/
def unrelatedPaths (p w : List String) : Prop := ¬ p <+: w ∧ ¬ w <+: p

namespace Typed

/-- Every field of the typed object other than `Spec.Replicas` is the same in both. -/
def sameExceptReplicas (fetched obj : appsv1.StatefulSet) : Prop :=
  obj.ObjectMeta = fetched.ObjectMeta ∧ obj.Status = fetched.Status ∧
    obj.Spec.Selector = fetched.Spec.Selector ∧ obj.Spec.Template = fetched.Spec.Template ∧
    obj.Spec.ServiceName = fetched.Spec.ServiceName

end Typed

namespace Dynamic

/-- The whole `metadata` entry (name, resourceVersion and the rest) is the same in both
documents, and so is the value at every path that is unrelated to the two written paths
`spec.replicas` and `spec.template.spec.containers`. -/
def sameExceptWritten (fetched obj : JsonMap) : Prop :=
  fieldAt obj "metadata" [] = fieldAt fetched "metadata" [] ∧
    fieldAt obj "metadata" ["resourceVersion"] = fieldAt fetched "metadata" ["resourceVersion"] ∧
    ∀ (field : String) (rest : List String),
      unrelatedPaths (field :: rest) ["spec", "replicas"] →
      unrelatedPaths (field :: rest) ["spec", "template", "spec", "containers"] →
      fieldAt obj field rest = fieldAt fetched field rest

end Dynamic

namespace Typed

/-- The end of the typed `updateStatefulSet`, as a function of how `RetryOnConflict`
ended: `if retryErr != nil { panic(fmt.Errorf("update failed: %v", retryErr)) }`. -/
def afterRetry : Outcome (Option GoError) → Outcome Unit
  | Outcome.panics v => Outcome.panics v
  | Outcome.returns none => Outcome.returns ()
  | Outcome.returns (some retryErr) => Outcome.panics (fmt.Errorf "update failed: " retryErr)

end Typed

namespace Dynamic

/-- The end of the dynamic `updateStatefulSet`, as a function of how `RetryOnConflict`
ended: `if retryErr != nil { panic(retryErr) }`. -/
def afterRetry : Outcome (Option GoError) → Outcome Unit
  | Outcome.panics v => Outcome.panics v
  | Outcome.returns none => Outcome.returns ()
  | Outcome.returns (some retryErr) => Outcome.panics retryErr

end Dynamic

/-! ## Concrete transports used to exhibit runs -/

/-- The conflict error used by the concrete transports below. -/
def conflictError : GoError :=
  GoError.status Reason.Conflict "the object has been modified"

namespace Typed

/-- A client whose `Get` always succeeds and whose `Update` conflicts as long as fewer
than `k` updates were sent, and succeeds afterwards. -/
def flakyClient (k : Nat) : Transport appsv1.StatefulSet :=
  { Create := fun _ obj => .ok obj,
    Get := fun _ _ => .ok Typed.statefulSet,
    Update := fun h obj => if countUpdates h < k then .error conflictError else .ok obj,
    Delete := fun _ _ _ => none,
    List := fun _ => .ok [] }

/-- A client whose `Get` always succeeds and whose `Update` always conflicts. -/
def conflictClient : Transport appsv1.StatefulSet :=
  { Create := fun _ obj => .ok obj,
    Get := fun _ _ => .ok Typed.statefulSet,
    Update := fun _ _ => .error conflictError,
    Delete := fun _ _ _ => none,
    List := fun _ => .ok [] }

end Typed

namespace Dynamic

/-- A client whose `Get` always succeeds and whose `Update` conflicts as long as fewer
than `k` updates were sent, and succeeds afterwards. -/
def flakyClient (k : Nat) : Transport JsonMap :=
  { Create := fun _ obj => .ok obj,
    Get := fun _ _ => .ok Dynamic.statefulSet,
    Update := fun h obj => if countUpdates h < k then .error conflictError else .ok obj,
    Delete := fun _ _ _ => none,
    List := fun _ => .ok [] }

/-- A client whose `Get` always succeeds and whose `Update` always conflicts. -/
def conflictClient : Transport JsonMap :=
  { Create := fun _ obj => .ok obj,
    Get := fun _ _ => .ok Dynamic.statefulSet,
    Update := fun _ _ => .error conflictError,
    Delete := fun _ _ _ => none,
    List := fun _ => .ok [] }

/-- A document whose `spec` entry is present but is a string. -/
def scalarSpecDocument : JsonMap :=
  [ ("apiVersion", Json.string "apps/v1"),
    ("kind", Json.string "StatefulSet"),
    ("metadata", Json.map [("name", Json.string "book-server"),
      ("resourceVersion", Json.string "7")]),
    ("spec", Json.string "opaque") ]

/-- A client whose `Get` always succeeds with `scalarSpecDocument` and whose `Update`
always succeeds. -/
def scalarSpecClient : Transport JsonMap :=
  { Create := fun _ obj => .ok obj,
    Get := fun _ _ => .ok scalarSpecDocument,
    Update := fun _ obj => .ok obj,
    Delete := fun _ _ _ => none,
    List := fun _ => .ok [] }

end Dynamic

/-! ## A common view of the two representations -/

/-- One exposed port, as both representations describe it. -/
structure PortView where
  name : String
  protocol : String
  containerPort : Int
  deriving DecidableEq, Repr

/-- The logical content of a single-container StatefulSet. -/
structure WorkloadView where
  name : String
  replicas : Option Int
  serviceName : String
  selector : List (String × String)
  templateLabels : List (String × String)
  containerName : String
  image : String
  imagePullPolicy : String
  ports : List PortView
  args : List String
  deriving DecidableEq, Repr

namespace Json

/-- A string entry of a document; an absent entry reads as the empty string, the zero
value of the typed field. -/
def asString : Option Json → String
  | some (Json.string s) => s
  | _ => ""

/-- An integer entry of a document. -/
def asInt : Option Json → Option Int
  | some (Json.int64 n) => some n
  | _ => none

/-- A map of strings in a document, as its list of entries. -/
def asLabels : Option Json → List (String × String)
  | some (Json.map entries) => entries.map (fun kv => (kv.1, asString (some kv.2)))
  | _ => []

/-- A sequence of strings in a document. -/
def asStrings : Option Json → List String
  | some (Json.slice items) => items.map (fun v => asString (some v))
  | _ => []

/-- One entry of a `ports` sequence. -/
def asPort : Json → PortView
  | Json.map p =>
    { name := asString (p.lookup "name"),
      protocol := asString (p.lookup "protocol"),
      containerPort := (asInt (p.lookup "containerPort")).getD 0 }
  | _ => { name := "", protocol := "", containerPort := 0 }

/-- A `ports` sequence of a document. -/
def asPorts : Option Json → List PortView
  | some (Json.slice items) => items.map asPort
  | _ => []

end Json

namespace Typed

/-- The logical content of a typed StatefulSet with exactly one container. -/
def view (s : appsv1.StatefulSet) : Option WorkloadView :=
  match s.Spec.Template.Spec.Containers with
  | [c] =>
    some
      { name := s.ObjectMeta.Name,
        replicas := s.Spec.Replicas,
        serviceName := s.Spec.ServiceName,
        selector := (s.Spec.Selector.map (fun sel => sel.MatchLabels)).getD [],
        templateLabels := s.Spec.Template.ObjectMeta.Labels,
        containerName := c.Name,
        image := c.Image,
        imagePullPolicy := c.ImagePullPolicy,
        ports := c.Ports.map (fun p =>
          { name := p.Name, protocol := p.Protocol, containerPort := p.ContainerPort }),
        args := c.Args }
  | _ => none

end Typed

namespace Dynamic

/-- The logical content of an unstructured StatefulSet document with exactly one
container, read at the paths of the wire format. -/
def view (obj : JsonMap) : Option WorkloadView :=
  match fieldAt obj "spec" ["template", "spec", "containers"] with
  | some (Json.slice [Json.map c]) =>
    some
      { name := Json.asString (fieldAt obj "metadata" ["name"]),
        replicas := Json.asInt (fieldAt obj "spec" ["replicas"]),
        serviceName := Json.asString (fieldAt obj "spec" ["serviceName"]),
        selector := Json.asLabels (fieldAt obj "spec" ["selector", "matchLabels"]),
        templateLabels := Json.asLabels (fieldAt obj "spec" ["template", "metadata", "labels"]),
        containerName := Json.asString (c.lookup "name"),
        image := Json.asString (c.lookup "image"),
        imagePullPolicy := Json.asString (c.lookup "imagePullPolicy"),
        ports := Json.asPorts (c.lookup "ports"),
        args := Json.asStrings (c.lookup "args") }
  | _ => none

end Dynamic

namespace Json

/-- Is the value a `map[string]interface{}`? -/
def isMap : Json → Bool
  | Json.map _ => true
  | _ => false

end Json

namespace Dynamic

/-- The error `SetNestedField` gives when the node at `path` is present but is not a
map. -/
def pathError (path : List String) : GoError :=
  GoError.errorf ("value cannot be set because " ++ unstructured.jsonPath path ++
    " is not a map[string]interface\x7b\x7d")

end Dynamic

namespace Typed

/-- A client whose `Get` replies NotFound. -/
def notFoundClient : Transport appsv1.StatefulSet :=
  { Create := fun _ obj => .ok obj,
    Get := fun _ _ => .error (GoError.status Reason.NotFound "book-server not found"),
    Update := fun _ obj => .ok obj,
    Delete := fun _ _ _ => none,
    List := fun _ => .ok [] }

/-- A client whose `Get` succeeds and whose `Update` replies Unauthorized. -/
def unauthorizedClient : Transport appsv1.StatefulSet :=
  { Create := fun _ obj => .ok obj,
    Get := fun _ _ => .ok Typed.statefulSet,
    Update := fun _ _ => .error (GoError.status Reason.Unauthorized "access denied"),
    Delete := fun _ _ _ => none,
    List := fun _ => .ok [] }

end Typed

/-! ## The control plane with a single writer -/

/-- Modelled from the spec: how the control plane (an external collaborator, not in the
sources) reads and advances the version token of an object.  `version` reads the
`resourceVersion`; `stamp` is the object as stored after an accepted write: the submitted
object with the next `resourceVersion`. -/
structure Versioning (α : Type) where
  version : α → String
  stamp : α → α

namespace Versioning

variable {α : Type}

/-- Modelled from the spec: the object the control plane holds after a history, when
this client is the only writer: the reply of the last accepted update, or the initial
object. -/
def stored (init : α) (h : History α) : α :=
  h.foldl (fun current e =>
    match e with
    | Exchange.Update _ (.ok accepted) => accepted
    | _ => current) init

/-- Modelled from the spec: the transport of section 4.2 against a control plane that
holds one object and has no other writer.  `get` returns the stored object; `update` is
accepted when the submitted `resourceVersion` is the stored one, and replies with the
object as stored (`stamp`); otherwise it replies Conflict. -/
def client (s : Versioning α) (init : α) : Transport α :=
  { Create := fun _ obj => .ok (s.stamp obj),
    Get := fun h _ => .ok (stored init h),
    Update := fun h obj =>
      if s.version obj = s.version (stored init h) then .ok (s.stamp obj)
      else .error conflictError,
    Delete := fun _ _ _ => none,
    List := fun h => .ok [stored init h] }

end Versioning

namespace Typed

/-- Modelled from the spec: the version token of a typed object is
`ObjectMeta.ResourceVersion`; `next` is the control plane's successor on tokens. -/
def versioning (next : String → String) : Versioning appsv1.StatefulSet :=
  { version := fun obj => obj.ObjectMeta.ResourceVersion,
    stamp := fun obj =>
      { obj with ObjectMeta :=
          { obj.ObjectMeta with ResourceVersion := next obj.ObjectMeta.ResourceVersion } } }

end Typed

namespace Dynamic

/-- Modelled from the spec: the version token of a document is the string at
`metadata.resourceVersion`; `next` is the control plane's successor on tokens.  A
document whose `metadata` is not a map is stored as it is. -/
def versioning (next : String → String) : Versioning JsonMap :=
  { version := fun obj => Json.asString (fieldAt obj "metadata" ["resourceVersion"]),
    stamp := fun obj =>
      match unstructured.SetNestedField obj
          (Json.string (next (Json.asString (fieldAt obj "metadata" ["resourceVersion"]))))
          "metadata" ["resourceVersion"] with
      | .ok stamped => stamped
      | .error _ => obj }

end Dynamic

/-! ## Clients whose requests time out on the client side -/

namespace Typed

end Typed

namespace Dynamic

end Dynamic

namespace Typed

end Typed

namespace Dynamic

end Dynamic

/-! ## The retry loop, one attempt at a time -/

theorem onConditionError_of_not_interrupted (release : retry.Release) (err : GoError)
    (lastErr : Option GoError) (h : wait.Interrupted err = false) :
    release.onConditionError err lastErr = some err := by
  cases release <;> simp [retry.Release.onConditionError, h]

theorem retry_loop_zero {α : Type} (release : retry.Release)
    (fn : ClientAction α (Option GoError)) (h : History α) (lastErr : Option GoError) :
    retryLoop release fn 0 h lastErr = (Outcome.returns lastErr, h) := by
  simp [retryLoop, wait.ExponentialBackoffLoop, retry.OnErrorResult]

theorem retry_loop_panics {α : Type} (release : retry.Release)
    (fn : ClientAction α (Option GoError)) (n : Nat)
    (h h1 : History α) (lastErr : Option GoError) (v : GoError)
    (hfn : fn h = (Outcome.panics v, h1)) :
    retryLoop release fn (n + 1) h lastErr = (Outcome.panics v, h1) := by
  simp [retryLoop, wait.ExponentialBackoffLoop, retry.OnErrorCondition, hfn,
    retry.OnErrorResult]

theorem retry_loop_done {α : Type} (release : retry.Release)
    (fn : ClientAction α (Option GoError)) (n : Nat)
    (h h1 : History α) (lastErr : Option GoError)
    (hfn : fn h = (Outcome.returns none, h1)) :
    retryLoop release fn (n + 1) h lastErr = (Outcome.returns none, h1) := by
  simp [retryLoop, wait.ExponentialBackoffLoop, retry.OnErrorCondition, hfn,
    retry.OnErrorResult]

theorem retry_loop_fatal {α : Type} (release : retry.Release)
    (fn : ClientAction α (Option GoError)) (n : Nat)
    (h h1 : History α) (lastErr : Option GoError) (err : GoError)
    (hfn : fn h = (Outcome.returns (some err), h1)) (herr : apierrors.IsConflict err = false) :
    retryLoop release fn (n + 1) h lastErr =
      (Outcome.returns (release.onConditionError err lastErr), h1) := by
  simp [retryLoop, wait.ExponentialBackoffLoop, retry.OnErrorCondition, hfn, herr,
    retry.OnErrorResult]

theorem retry_loop_conflict {α : Type} (release : retry.Release)
    (fn : ClientAction α (Option GoError)) (n : Nat)
    (h h1 : History α) (lastErr : Option GoError) (err : GoError)
    (hfn : fn h = (Outcome.returns (some err), h1)) (herr : apierrors.IsConflict err = true) :
    retryLoop release fn (n + 1) h lastErr = retryLoop release fn n h1 (some err) := by
  unfold retryLoop
  cases n with
  | zero => simp [wait.ExponentialBackoffLoop, retry.OnErrorCondition, hfn, herr, retry.OnErrorResult]
  | succ m =>
    conv => lhs; unfold wait.ExponentialBackoffLoop
    simp [retry.OnErrorCondition, hfn, herr]

/-! ## The typed update loop -/

theorem typed_loop_zero (release : retry.Release) (c : Transport appsv1.StatefulSet) (h : History appsv1.StatefulSet)
    (lastErr : Option GoError) :
    retryLoop release (Typed.updateAttempt c) 0 h lastErr = (Outcome.returns lastErr, h) :=
  retry_loop_zero release _ h lastErr

theorem typed_loop_get_error (release : retry.Release) (c : Transport appsv1.StatefulSet) (n : Nat)
    (h : History appsv1.StatefulSet) (lastErr : Option GoError) (getErr : GoError)
    (hg : c.Get h "book-server" = .error getErr) :
    retryLoop release (Typed.updateAttempt c) (n + 1) h lastErr =
      (Outcome.panics (fmt.Errorf "failed to get latest version of StatefulSet: " getErr),
        h ++ [Exchange.Get "book-server" (.error getErr)]) := by
  apply retry_loop_panics
  simp [Typed.updateAttempt, hg]

theorem typed_loop_update_ok (release : retry.Release) (c : Transport appsv1.StatefulSet) (n : Nat)
    (h : History appsv1.StatefulSet) (lastErr : Option GoError)
    (fetched updated : appsv1.StatefulSet)
    (hg : c.Get h "book-server" = .ok fetched)
    (hu : c.Update (h ++ [Exchange.Get "book-server" (.ok fetched)]) (Typed.setReplicas fetched)
      = .ok updated) :
    retryLoop release (Typed.updateAttempt c) (n + 1) h lastErr =
      (Outcome.returns none,
        h ++ [Exchange.Get "book-server" (.ok fetched),
              Exchange.Update (Typed.setReplicas fetched) (.ok updated)]) := by
  apply retry_loop_done
  simp [Typed.updateAttempt, hg, hu]

theorem typed_loop_update_fatal (release : retry.Release) (c : Transport appsv1.StatefulSet) (n : Nat)
    (h : History appsv1.StatefulSet) (lastErr : Option GoError)
    (fetched : appsv1.StatefulSet) (updateErr : GoError)
    (hg : c.Get h "book-server" = .ok fetched)
    (hu : c.Update (h ++ [Exchange.Get "book-server" (.ok fetched)]) (Typed.setReplicas fetched)
      = .error updateErr)
    (hc : apierrors.IsConflict updateErr = false) :
    retryLoop release (Typed.updateAttempt c) (n + 1) h lastErr =
      (Outcome.returns (release.onConditionError updateErr lastErr),
        h ++ [Exchange.Get "book-server" (.ok fetched),
              Exchange.Update (Typed.setReplicas fetched) (.error updateErr)]) := by
  apply retry_loop_fatal _ _ _ _ _ _ _ _ hc
  simp [Typed.updateAttempt, hg, hu]

theorem typed_loop_update_conflict (release : retry.Release) (c : Transport appsv1.StatefulSet) (n : Nat)
    (h : History appsv1.StatefulSet) (lastErr : Option GoError)
    (fetched : appsv1.StatefulSet) (updateErr : GoError)
    (hg : c.Get h "book-server" = .ok fetched)
    (hu : c.Update (h ++ [Exchange.Get "book-server" (.ok fetched)]) (Typed.setReplicas fetched)
      = .error updateErr)
    (hc : apierrors.IsConflict updateErr = true) :
    retryLoop release (Typed.updateAttempt c) (n + 1) h lastErr =
      retryLoop release (Typed.updateAttempt c) n
        (h ++ [Exchange.Get "book-server" (.ok fetched),
               Exchange.Update (Typed.setReplicas fetched) (.error updateErr)])
        (some updateErr) := by
  apply retry_loop_conflict _ _ _ _ _ _ _ _ hc
  simp [Typed.updateAttempt, hg, hu]

/-- Everything the later statements need about a run of the typed retry loop. -/
theorem typed_loop_spec (release : retry.Release) (c : Transport appsv1.StatefulSet) :
    ∀ (n : Nat) (h : History appsv1.StatefulSet) (lastErr : Option GoError),
      ∃ out run, retryLoop release (Typed.updateAttempt c) n h lastErr = (out, h ++ run) ∧
        countGets run ≤ n ∧ countUpdates run ≤ n ∧
        updatesSubmit (fun fetched obj => obj = Typed.setReplicas fetched) none run ∧
        fatalOnlyLast run = true ∧
        (∀ e ∈ run, e.isGet = true ∨ e.isUpdate = true) ∧
        (∀ name err, Exchange.Get name (.error err) ∈ run →
          out = Outcome.panics
            (fmt.Errorf "failed to get latest version of StatefulSet: " err)) ∧
        (∀ obj err, Exchange.Update obj (.error err) ∈ run →
          apierrors.IsConflict err = false → wait.Interrupted err = false →
          out = Outcome.returns (some err)) := by
  intro n
  induction n with
  | zero =>
    intro h lastErr
    exact ⟨Outcome.returns lastErr, [], by simp [typed_loop_zero release], by simp [countGets],
      by simp [countUpdates], by simp [updatesSubmit], by simp [fatalOnlyLast], by simp,
      by simp, by simp⟩
  | succ n ih =>
    intro h lastErr
    cases hg : c.Get h "book-server" with
    | error getErr =>
      refine ⟨_, [Exchange.Get "book-server" (.error getErr)],
        typed_loop_get_error release c n h lastErr getErr hg, ?_, ?_, ?_, ?_, ?_, ?_, ?_⟩
      · simp [countGets, Exchange.isGet]
      · simp [countUpdates, Exchange.isUpdate]
      · simp [updatesSubmit]
      · simp [fatalOnlyLast]
      · simp [Exchange.isGet]
      · intro name err hmem
        simp at hmem
        rw [hmem.2]
      · intro obj err hmem
        simp at hmem
    | ok fetched =>
      cases hu : c.Update (h ++ [Exchange.Get "book-server" (.ok fetched)])
          (Typed.setReplicas fetched) with
      | ok updated =>
        refine ⟨_, [Exchange.Get "book-server" (.ok fetched),
            Exchange.Update (Typed.setReplicas fetched) (.ok updated)],
          typed_loop_update_ok release c n h lastErr fetched updated hg hu, ?_, ?_, ?_, ?_, ?_, ?_, ?_⟩
        · simp [countGets, Exchange.isGet]
        · simp [countUpdates, Exchange.isUpdate]
        · simp [updatesSubmit]
        · simp [fatalOnlyLast, isFatal, Exchange.replyError]
        · simp [Exchange.isGet, Exchange.isUpdate]
        · intro name err hmem
          simp at hmem
        · intro obj err hmem
          simp at hmem
      | error updateErr =>
        cases hc : apierrors.IsConflict updateErr with
        | false =>
          refine ⟨_, [Exchange.Get "book-server" (.ok fetched),
              Exchange.Update (Typed.setReplicas fetched) (.error updateErr)],
            typed_loop_update_fatal release c n h lastErr fetched updateErr hg hu hc,
            ?_, ?_, ?_, ?_, ?_, ?_, ?_⟩
          · simp [countGets, Exchange.isGet]
          · simp [countUpdates, Exchange.isUpdate]
          · simp [updatesSubmit]
          · simp [fatalOnlyLast, isFatal, Exchange.replyError]
          · simp [Exchange.isGet, Exchange.isUpdate]
          · intro name err hmem
            simp at hmem
          · intro obj err hmem _ hni
            simp at hmem
            rw [hmem.2] at hni ⊢
            rw [onConditionError_of_not_interrupted release updateErr lastErr hni]
        | true =>
          obtain ⟨out, run, hrun, h1, h2, h3, h4, h5, h6, h7⟩ :=
            ih (h ++ [Exchange.Get "book-server" (.ok fetched),
              Exchange.Update (Typed.setReplicas fetched) (.error updateErr)]) (some updateErr)
          refine ⟨out, Exchange.Get "book-server" (.ok fetched) ::
              Exchange.Update (Typed.setReplicas fetched) (.error updateErr) :: run,
            ?_, ?_, ?_, ?_, ?_, ?_, ?_, ?_⟩
          · rw [typed_loop_update_conflict release c n h lastErr fetched updateErr hg hu hc, hrun]
            simp
          · simp [countGets, Exchange.isGet, List.countP_cons] at h1 ⊢
            omega
          · simp [countUpdates, Exchange.isUpdate, List.countP_cons] at h2 ⊢
            omega
          · simp [updatesSubmit, h3]
          · simp [fatalOnlyLast, isFatal, Exchange.replyError, hc, h4]
          · intro e he
            simp at he
            rcases he with he | he | he
            · simp [he, Exchange.isGet]
            · simp [he, Exchange.isUpdate]
            · exact h5 e he
          · intro name err hmem
            simp at hmem
            exact h6 name err hmem
          · intro obj err hmem hce hni
            simp at hmem
            rcases hmem with hmem | hmem
            · rw [hmem.2, hc] at hce
              exact absurd hce (by simp)
            · exact h7 obj err hmem hce hni

/-! ## The dynamic update loop -/

theorem setNestedFieldNoCopy_error_is_errorf (value : Json) :
    ∀ (rest : List String) (m : JsonMap) (walked : List String) (field : String) (err : GoError),
      unstructured.setNestedFieldNoCopy m value walked field rest = .error err →
      ∃ text, err = GoError.errorf text := by
  intro rest
  induction rest with
  | nil =>
    intro m walked field err h
    simp [unstructured.setNestedFieldNoCopy] at h
  | cons next rest ih =>
    intro m walked field err h
    unfold unstructured.setNestedFieldNoCopy at h
    split at h
    · split at h
      · simp at h
      · rename_i heq
        simp only [Except.error.injEq] at h
        subst h
        exact ih _ _ _ _ heq
    · simp only [Except.error.injEq] at h
      subst h
      exact ⟨_, rfl⟩
    · split at h
      · simp at h
      · rename_i heq
        simp only [Except.error.injEq] at h
        subst h
        exact ih _ _ _ _ heq

theorem dynamic_mutate_error_is_errorf (obj : JsonMap) (err : GoError)
    (h : Dynamic.mutate obj = .error err) : ∃ text, err = GoError.errorf text := by
  unfold Dynamic.mutate at h
  split at h
  · rename_i heq
    simp only [Except.error.injEq] at h
    subst h
    exact setNestedFieldNoCopy_error_is_errorf _ _ _ _ _ _ heq
  · split at h
    · rename_i heq
      simp only [Except.error.injEq] at h
      subst h
      exact setNestedFieldNoCopy_error_is_errorf _ _ _ _ _ _ heq
    · simp at h

theorem dynamic_mutate_error_not_conflict (obj : JsonMap) (err : GoError)
    (h : Dynamic.mutate obj = .error err) : apierrors.IsConflict err = false := by
  obtain ⟨text, rfl⟩ := dynamic_mutate_error_is_errorf obj err h
  rfl

theorem dynamic_mutate_error_not_interrupted (obj : JsonMap) (err : GoError)
    (h : Dynamic.mutate obj = .error err) : wait.Interrupted err = false := by
  obtain ⟨text, rfl⟩ := dynamic_mutate_error_is_errorf obj err h
  rfl

theorem dynamic_loop_zero (release : retry.Release) (c : Transport JsonMap) (h : History JsonMap)
    (lastErr : Option GoError) :
    retryLoop release (Dynamic.updateAttempt c) 0 h lastErr = (Outcome.returns lastErr, h) :=
  retry_loop_zero release _ h lastErr

theorem dynamic_loop_get_fatal (release : retry.Release) (c : Transport JsonMap) (n : Nat) (h : History JsonMap)
    (lastErr : Option GoError) (err : GoError)
    (hg : c.Get h "book-server" = .error err) (hc : apierrors.IsConflict err = false) :
    retryLoop release (Dynamic.updateAttempt c) (n + 1) h lastErr =
      (Outcome.returns (release.onConditionError err lastErr),
        h ++ [Exchange.Get "book-server" (.error err)]) := by
  apply retry_loop_fatal _ _ _ _ _ _ _ _ hc
  simp [Dynamic.updateAttempt, hg]

theorem dynamic_loop_get_conflict (release : retry.Release) (c : Transport JsonMap) (n : Nat) (h : History JsonMap)
    (lastErr : Option GoError) (err : GoError)
    (hg : c.Get h "book-server" = .error err) (hc : apierrors.IsConflict err = true) :
    retryLoop release (Dynamic.updateAttempt c) (n + 1) h lastErr =
      retryLoop release (Dynamic.updateAttempt c) n (h ++ [Exchange.Get "book-server" (.error err)])
        (some err) := by
  apply retry_loop_conflict _ _ _ _ _ _ _ _ hc
  simp [Dynamic.updateAttempt, hg]

theorem dynamic_loop_mutate_error (release : retry.Release) (c : Transport JsonMap) (n : Nat) (h : History JsonMap)
    (lastErr : Option GoError) (fetched : JsonMap) (err : GoError)
    (hg : c.Get h "book-server" = .ok fetched) (hm : Dynamic.mutate fetched = .error err) :
    retryLoop release (Dynamic.updateAttempt c) (n + 1) h lastErr =
      (Outcome.returns (some err), h ++ [Exchange.Get "book-server" (.ok fetched)]) := by
  rw [← onConditionError_of_not_interrupted release err lastErr
    (dynamic_mutate_error_not_interrupted fetched err hm)]
  apply retry_loop_fatal _ _ _ _ _ _ _ _ (dynamic_mutate_error_not_conflict fetched err hm)
  simp [Dynamic.updateAttempt, hg, hm]

theorem dynamic_loop_update_ok (release : retry.Release) (c : Transport JsonMap) (n : Nat) (h : History JsonMap)
    (lastErr : Option GoError) (fetched result updated : JsonMap)
    (hg : c.Get h "book-server" = .ok fetched) (hm : Dynamic.mutate fetched = .ok result)
    (hu : c.Update (h ++ [Exchange.Get "book-server" (.ok fetched)]) result = .ok updated) :
    retryLoop release (Dynamic.updateAttempt c) (n + 1) h lastErr =
      (Outcome.returns none,
        h ++ [Exchange.Get "book-server" (.ok fetched), Exchange.Update result (.ok updated)]) := by
  apply retry_loop_done
  simp [Dynamic.updateAttempt, hg, hm, hu]

theorem dynamic_loop_update_fatal (release : retry.Release) (c : Transport JsonMap) (n : Nat) (h : History JsonMap)
    (lastErr : Option GoError) (fetched result : JsonMap) (err : GoError)
    (hg : c.Get h "book-server" = .ok fetched) (hm : Dynamic.mutate fetched = .ok result)
    (hu : c.Update (h ++ [Exchange.Get "book-server" (.ok fetched)]) result = .error err)
    (hc : apierrors.IsConflict err = false) :
    retryLoop release (Dynamic.updateAttempt c) (n + 1) h lastErr =
      (Outcome.returns (release.onConditionError err lastErr),
        h ++ [Exchange.Get "book-server" (.ok fetched), Exchange.Update result (.error err)]) := by
  apply retry_loop_fatal _ _ _ _ _ _ _ _ hc
  simp [Dynamic.updateAttempt, hg, hm, hu]

theorem dynamic_loop_update_conflict (release : retry.Release) (c : Transport JsonMap) (n : Nat) (h : History JsonMap)
    (lastErr : Option GoError) (fetched result : JsonMap) (err : GoError)
    (hg : c.Get h "book-server" = .ok fetched) (hm : Dynamic.mutate fetched = .ok result)
    (hu : c.Update (h ++ [Exchange.Get "book-server" (.ok fetched)]) result = .error err)
    (hc : apierrors.IsConflict err = true) :
    retryLoop release (Dynamic.updateAttempt c) (n + 1) h lastErr =
      retryLoop release (Dynamic.updateAttempt c) n
        (h ++ [Exchange.Get "book-server" (.ok fetched), Exchange.Update result (.error err)])
        (some err) := by
  apply retry_loop_conflict _ _ _ _ _ _ _ _ hc
  simp [Dynamic.updateAttempt, hg, hm, hu]

/-- Everything the later statements need about a run of the dynamic retry loop. -/
theorem dynamic_loop_spec (release : retry.Release) (c : Transport JsonMap) :
    ∀ (n : Nat) (h : History JsonMap) (lastErr : Option GoError),
      ∃ out run, retryLoop release (Dynamic.updateAttempt c) n h lastErr = (out, h ++ run) ∧
        countGets run ≤ n ∧ countUpdates run ≤ n ∧
        updatesSubmit (fun fetched obj => Dynamic.mutate fetched = .ok obj) none run ∧
        fatalOnlyLast run = true ∧
        (∀ e ∈ run, e.isGet = true ∨ e.isUpdate = true) ∧
        (∀ name err, Exchange.Get name (.error err) ∈ run →
          apierrors.IsConflict err = false → wait.Interrupted err = false →
          out = Outcome.returns (some err)) ∧
        (∀ obj err, Exchange.Update obj (.error err) ∈ run →
          apierrors.IsConflict err = false → wait.Interrupted err = false →
          out = Outcome.returns (some err)) := by
  intro n
  induction n with
  | zero =>
    intro h lastErr
    exact ⟨Outcome.returns lastErr, [], by simp [dynamic_loop_zero release], by simp [countGets],
      by simp [countUpdates], by simp [updatesSubmit], by simp [fatalOnlyLast], by simp,
      by simp, by simp⟩
  | succ n ih =>
    intro h lastErr
    cases hg : c.Get h "book-server" with
    | error getErr =>
      cases hc : apierrors.IsConflict getErr with
      | false =>
        refine ⟨_, [Exchange.Get "book-server" (.error getErr)],
          dynamic_loop_get_fatal release c n h lastErr getErr hg hc, ?_, ?_, ?_, ?_, ?_, ?_, ?_⟩
        · simp [countGets, Exchange.isGet]
        · simp [countUpdates, Exchange.isUpdate]
        · simp [updatesSubmit]
        · simp [fatalOnlyLast]
        · simp [Exchange.isGet]
        · intro name err hmem _ hni
          simp at hmem
          rw [hmem.2] at hni ⊢
          rw [onConditionError_of_not_interrupted release getErr lastErr hni]
        · intro obj err hmem
          simp at hmem
      | true =>
        obtain ⟨out, run, hrun, h1, h2, h3, h4, h5, h6, h7⟩ :=
          ih (h ++ [Exchange.Get "book-server" (.error getErr)]) (some getErr)
        refine ⟨out, Exchange.Get "book-server" (.error getErr) :: run,
          ?_, ?_, ?_, ?_, ?_, ?_, ?_, ?_⟩
        · rw [dynamic_loop_get_conflict release c n h lastErr getErr hg hc, hrun]
          simp
        · simp [countGets, Exchange.isGet, List.countP_cons] at h1 ⊢
          omega
        · simp [countUpdates, Exchange.isUpdate, List.countP_cons] at h2 ⊢
          omega
        · simp [updatesSubmit, h3]
        · simp [fatalOnlyLast, isFatal, Exchange.replyError, hc, h4]
        · intro e he
          simp at he
          rcases he with he | he
          · simp [he, Exchange.isGet]
          · exact h5 e he
        · intro name err hmem hce hni
          simp at hmem
          rcases hmem with hmem | hmem
          · rw [hmem.2, hc] at hce
            exact absurd hce (by simp)
          · exact h6 name err hmem hce hni
        · intro obj err hmem hce hni
          simp at hmem
          exact h7 obj err hmem hce hni
    | ok fetched =>
      cases hm : Dynamic.mutate fetched with
      | error pathErr =>
        refine ⟨_, [Exchange.Get "book-server" (.ok fetched)],
          dynamic_loop_mutate_error release c n h lastErr fetched pathErr hg hm, ?_, ?_, ?_, ?_, ?_, ?_, ?_⟩
        · simp [countGets, Exchange.isGet]
        · simp [countUpdates, Exchange.isUpdate]
        · simp [updatesSubmit]
        · simp [fatalOnlyLast]
        · simp [Exchange.isGet]
        · intro name err hmem
          simp at hmem
        · intro obj err hmem
          simp at hmem
      | ok result =>
        cases hu : c.Update (h ++ [Exchange.Get "book-server" (.ok fetched)]) result with
        | ok updated =>
          refine ⟨_, [Exchange.Get "book-server" (.ok fetched),
              Exchange.Update result (.ok updated)],
            dynamic_loop_update_ok release c n h lastErr fetched result updated hg hm hu,
            ?_, ?_, ?_, ?_, ?_, ?_, ?_⟩
          · simp [countGets, Exchange.isGet]
          · simp [countUpdates, Exchange.isUpdate]
          · simp [updatesSubmit, hm]
          · simp [fatalOnlyLast, isFatal, Exchange.replyError]
          · simp [Exchange.isGet, Exchange.isUpdate]
          · intro name err hmem
            simp at hmem
          · intro obj err hmem
            simp at hmem
        | error updateErr =>
          cases hc : apierrors.IsConflict updateErr with
          | false =>
            refine ⟨_, [Exchange.Get "book-server" (.ok fetched),
                Exchange.Update result (.error updateErr)],
              dynamic_loop_update_fatal release c n h lastErr fetched result updateErr hg hm hu hc,
              ?_, ?_, ?_, ?_, ?_, ?_, ?_⟩
            · simp [countGets, Exchange.isGet]
            · simp [countUpdates, Exchange.isUpdate]
            · simp [updatesSubmit, hm]
            · simp [fatalOnlyLast, isFatal, Exchange.replyError]
            · simp [Exchange.isGet, Exchange.isUpdate]
            · intro name err hmem
              simp at hmem
            · intro obj err hmem _ hni
              simp at hmem
              rw [hmem.2] at hni ⊢
              rw [onConditionError_of_not_interrupted release updateErr lastErr hni]
          | true =>
            obtain ⟨out, run, hrun, h1, h2, h3, h4, h5, h6, h7⟩ :=
              ih (h ++ [Exchange.Get "book-server" (.ok fetched),
                Exchange.Update result (.error updateErr)]) (some updateErr)
            refine ⟨out, Exchange.Get "book-server" (.ok fetched) ::
                Exchange.Update result (.error updateErr) :: run,
              ?_, ?_, ?_, ?_, ?_, ?_, ?_, ?_⟩
            · rw [dynamic_loop_update_conflict release c n h lastErr fetched result updateErr hg hm hu hc,
                hrun]
              simp
            · simp [countGets, Exchange.isGet, List.countP_cons] at h1 ⊢
              omega
            · simp [countUpdates, Exchange.isUpdate, List.countP_cons] at h2 ⊢
              omega
            · simp [updatesSubmit, h3, hm]
            · simp [fatalOnlyLast, isFatal, Exchange.replyError, hc, h4]
            · intro e he
              simp at he
              rcases he with he | he | he
              · simp [he, Exchange.isGet]
              · simp [he, Exchange.isUpdate]
              · exact h5 e he
            · intro name err hmem hce hni
              simp at hmem
              exact h6 name err hmem hce hni
            · intro obj err hmem hce hni
              simp at hmem
              rcases hmem with hmem | hmem
              · rw [hmem.2, hc] at hce
                exact absurd hce (by simp)
              · exact h7 obj err hmem hce hni

/-! ## Maps and nested writes -/

theorem jsonMap_lookup_store_same (m : JsonMap) (k : String) (v : Json) :
    JsonMap.lookup (JsonMap.store m k v) k = some v := by
  induction m with
  | nil => simp [JsonMap.store, JsonMap.lookup]
  | cons e rest ih =>
    obtain ⟨k1, v1⟩ := e
    by_cases hk : k1 = k
    · simp [JsonMap.store, JsonMap.lookup, hk]
    · simp [JsonMap.store, JsonMap.lookup, hk, ih]

theorem jsonMap_lookup_store_ne (m : JsonMap) (k q : String) (v : Json) (hq : q ≠ k) :
    JsonMap.lookup (JsonMap.store m k v) q = JsonMap.lookup m q := by
  induction m with
  | nil =>
    have : ¬ k = q := fun h => hq h.symm
    simp [JsonMap.store, JsonMap.lookup, this]
  | cons e rest ih =>
    obtain ⟨k1, v1⟩ := e
    by_cases hk : k1 = k
    · subst hk
      have : ¬ k1 = q := fun h => hq h.symm
      simp [JsonMap.store, JsonMap.lookup, this]
    · by_cases hq1 : k1 = q
      · subst hq1
        simp [JsonMap.store, JsonMap.lookup, hk]
      · simp [JsonMap.store, JsonMap.lookup, hk, hq1, ih]

theorem jsonMap_store_of_lookup (m : JsonMap) (k : String) (v : Json)
    (h : JsonMap.lookup m k = some v) : JsonMap.store m k v = m := by
  induction m with
  | nil => simp [JsonMap.lookup] at h
  | cons e rest ih =>
    obtain ⟨k1, v1⟩ := e
    by_cases hk : k1 = k
    · simp [JsonMap.lookup, hk] at h
      simp [JsonMap.store, hk, h]
    · simp [JsonMap.lookup, hk] at h
      simp [JsonMap.store, hk, ih h]

theorem fieldAt_nil (next : String) (rest : List String) :
    fieldAt [] next rest = none := by
  cases rest <;> simp [fieldAt, JsonMap.lookup]

/-- A successful nested write leaves every unrelated path as it was. -/
theorem setNestedFieldNoCopy_frame (value : Json) :
    ∀ (rest : List String) (m m1 : JsonMap) (walked : List String) (field : String),
      unstructured.setNestedFieldNoCopy m value walked field rest = .ok m1 →
      ∀ (pf : String) (prest : List String), unrelatedPaths (pf :: prest) (field :: rest) →
        fieldAt m1 pf prest = fieldAt m pf prest := by
  intro rest
  induction rest with
  | nil =>
    intro m m1 walked field h pf prest hun
    simp [unstructured.setNestedFieldNoCopy] at h
    subst h
    have hne : pf ≠ field := by
      intro heq
      apply hun.2
      rw [heq]
      simp [List.cons_prefix_cons]
    cases prest with
    | nil => simp [fieldAt, jsonMap_lookup_store_ne _ _ _ _ hne]
    | cons p ps => simp [fieldAt, jsonMap_lookup_store_ne _ _ _ _ hne]
  | cons next rest ih =>
    intro m m1 walked field h pf prest hun
    by_cases hne : pf = field
    · subst hne
      cases prest with
      | nil =>
        exfalso
        apply hun.1
        simp [List.cons_prefix_cons]
      | cons p ps =>
        have hun1 : unrelatedPaths (p :: ps) (next :: rest) := by
          constructor
          · intro hp
            apply hun.1
            simpa [List.cons_prefix_cons] using hp
          · intro hp
            apply hun.2
            simpa [List.cons_prefix_cons] using hp
        unfold unstructured.setNestedFieldNoCopy at h
        split at h
        · rename_i valMap hl
          split at h
          · rename_i newMap hset
            simp only [Except.ok.injEq] at h
            subst h
            simp [fieldAt, jsonMap_lookup_store_same, hl, ih _ _ _ _ hset p ps hun1]
          · simp at h
        · simp at h
        · rename_i hl
          split at h
          · rename_i newMap hset
            simp only [Except.ok.injEq] at h
            subst h
            simp [fieldAt, jsonMap_lookup_store_same, hl, ih _ _ _ _ hset p ps hun1, fieldAt_nil]
          · simp at h
    · have hstore : ∀ sub, fieldAt (JsonMap.store m field sub) pf prest = fieldAt m pf prest := by
        intro sub
        cases prest with
        | nil => simp [fieldAt, jsonMap_lookup_store_ne _ _ _ _ hne]
        | cons p ps => simp [fieldAt, jsonMap_lookup_store_ne _ _ _ _ hne]
      unfold unstructured.setNestedFieldNoCopy at h
      split at h
      · split at h
        · simp only [Except.ok.injEq] at h
          subst h
          exact hstore _
        · simp at h
      · simp at h
      · split at h
        · simp only [Except.ok.injEq] at h
          subst h
          exact hstore _
        · simp at h

/-- After a successful nested write the written path holds the value. -/
theorem setNestedFieldNoCopy_reads_back (value : Json) :
    ∀ (rest : List String) (m m1 : JsonMap) (walked : List String) (field : String),
      unstructured.setNestedFieldNoCopy m value walked field rest = .ok m1 →
      fieldAt m1 field rest = some value := by
  intro rest
  induction rest with
  | nil =>
    intro m m1 walked field h
    simp [unstructured.setNestedFieldNoCopy] at h
    subst h
    simp [fieldAt, jsonMap_lookup_store_same]
  | cons next rest ih =>
    intro m m1 walked field h
    unfold unstructured.setNestedFieldNoCopy at h
    split at h
    · split at h
      · rename_i newMap hset
        simp only [Except.ok.injEq] at h
        subst h
        simp [fieldAt, jsonMap_lookup_store_same, ih _ _ _ _ hset]
      · simp at h
    · simp at h
    · split at h
      · rename_i newMap hset
        simp only [Except.ok.injEq] at h
        subst h
        simp [fieldAt, jsonMap_lookup_store_same, ih _ _ _ _ hset]
      · simp at h

/-- Writing a value where the path already holds it changes nothing. -/
theorem setNestedFieldNoCopy_of_fieldAt (value : Json) :
    ∀ (rest : List String) (m : JsonMap) (walked : List String) (field : String),
      fieldAt m field rest = some value →
      unstructured.setNestedFieldNoCopy m value walked field rest = .ok m := by
  intro rest
  induction rest with
  | nil =>
    intro m walked field h
    simp [fieldAt] at h
    simp [unstructured.setNestedFieldNoCopy, jsonMap_store_of_lookup _ _ _ h]
  | cons next rest ih =>
    intro m walked field h
    unfold fieldAt at h
    split at h
    · rename_i sub hl
      unfold unstructured.setNestedFieldNoCopy
      simp [hl, ih _ _ _ h, jsonMap_store_of_lookup _ _ _ hl]
    · simp at h

/-! ## The two writes of the dynamic update -/

theorem dynamic_mutate_ok_iff (obj result : JsonMap) :
    Dynamic.mutate obj = .ok result ↔
      ∃ obj1, unstructured.SetNestedField obj (Json.int64 1) "spec" ["replicas"] = .ok obj1 ∧
        unstructured.SetNestedField obj1 Dynamic.containers "spec"
          ["template", "spec", "containers"] = .ok result := by
  unfold Dynamic.mutate
  constructor
  · intro h
    split at h
    · simp at h
    · rename_i obj1 h1
      split at h
      · simp at h
      · rename_i obj2 h2
        simp only [Except.ok.injEq] at h
        subst h
        exact ⟨obj1, h1, h2⟩
  · rintro ⟨obj1, h1, h2⟩
    simp [h1, h2]

theorem dynamic_mutate_frame (obj result : JsonMap) (h : Dynamic.mutate obj = .ok result) :
    Dynamic.sameExceptWritten obj result := by
  obtain ⟨obj1, h1, h2⟩ := (dynamic_mutate_ok_iff obj result).1 h
  have key : ∀ (field : String) (rest : List String),
      unrelatedPaths (field :: rest) ["spec", "replicas"] →
      unrelatedPaths (field :: rest) ["spec", "template", "spec", "containers"] →
      fieldAt result field rest = fieldAt obj field rest := by
    intro field rest hu1 hu2
    rw [setNestedFieldNoCopy_frame _ _ _ _ _ _ h2 field rest hu2,
      setNestedFieldNoCopy_frame _ _ _ _ _ _ h1 field rest hu1]
  refine ⟨key _ _ ?_ ?_, key _ _ ?_ ?_, key⟩ <;>
    simp [unrelatedPaths, List.cons_prefix_cons]

theorem dynamic_mutate_reads_back (obj result : JsonMap) (h : Dynamic.mutate obj = .ok result) :
    fieldAt result "spec" ["replicas"] = some (Json.int64 1) ∧
      fieldAt result "spec" ["template", "spec", "containers"] = some Dynamic.containers := by
  obtain ⟨obj1, h1, h2⟩ := (dynamic_mutate_ok_iff obj result).1 h
  constructor
  · rw [setNestedFieldNoCopy_frame _ _ _ _ _ _ h2 "spec" ["replicas"]
      (by simp [unrelatedPaths, List.cons_prefix_cons])]
    exact setNestedFieldNoCopy_reads_back _ _ _ _ _ _ h1
  · exact setNestedFieldNoCopy_reads_back _ _ _ _ _ _ h2

theorem dynamic_mutate_of_fields (obj : JsonMap)
    (h1 : fieldAt obj "spec" ["replicas"] = some (Json.int64 1))
    (h2 : fieldAt obj "spec" ["template", "spec", "containers"] = some Dynamic.containers) :
    Dynamic.mutate obj = .ok obj := by
  rw [dynamic_mutate_ok_iff]
  exact ⟨obj, setNestedFieldNoCopy_of_fieldAt _ _ _ _ _ h1,
    setNestedFieldNoCopy_of_fieldAt _ _ _ _ _ h2⟩

theorem dynamic_mutate_idempotent (obj result : JsonMap) (h : Dynamic.mutate obj = .ok result) :
    Dynamic.mutate result = .ok result :=
  dynamic_mutate_of_fields result (dynamic_mutate_reads_back obj result h).1
    (dynamic_mutate_reads_back obj result h).2

theorem updatesSubmit_mono {α : Type} (rel rel2 : α → α → Prop)
    (hrel : ∀ a b, rel a b → rel2 a b) :
    ∀ (run : History α) (pending : Option α),
      updatesSubmit rel pending run → updatesSubmit rel2 pending run := by
  intro run
  induction run with
  | nil => intro pending _; cases pending <;> simp [updatesSubmit]
  | cons e rest ih =>
    intro pending h
    cases e with
    | Get name reply =>
      cases reply with
      | ok fetched =>
        cases pending <;> simp only [updatesSubmit] at h ⊢ <;> exact ih _ h
      | error err =>
        cases pending <;> simp only [updatesSubmit] at h ⊢ <;> exact ih _ h
    | Update obj reply =>
      cases pending with
      | none => simp [updatesSubmit] at h
      | some fetched =>
        simp only [updatesSubmit] at h ⊢
        exact ⟨hrel _ _ h.1, ih _ h.2⟩
    | Create obj reply =>
      cases pending <;> simp only [updatesSubmit] at h ⊢ <;> exact ih _ h
    | List reply =>
      cases pending <;> simp only [updatesSubmit] at h ⊢ <;> exact ih _ h
    | Delete name policy reply =>
      cases pending <;> simp only [updatesSubmit] at h ⊢ <;> exact ih _ h

/-! ## From the loop to `updateStatefulSet` -/

theorem typed_updateStatefulSet_eq (release : retry.Release) (c : Transport appsv1.StatefulSet)
    (h : History appsv1.StatefulSet) :
    Typed.updateStatefulSet release c h =
      match retryLoop release (Typed.updateAttempt c) 5 h none with
      | (Outcome.panics v, h1) => (Outcome.panics v, h1)
      | (Outcome.returns none, h1) => (Outcome.returns (), h1)
      | (Outcome.returns (some retryErr), h1) =>
        (Outcome.panics (fmt.Errorf "update failed: " retryErr), h1) := rfl

theorem dynamic_updateStatefulSet_eq (release : retry.Release) (c : Transport JsonMap) (h : History JsonMap) :
    Dynamic.updateStatefulSet release c h =
      match retryLoop release (Dynamic.updateAttempt c) 5 h none with
      | (Outcome.panics v, h1) => (Outcome.panics v, h1)
      | (Outcome.returns none, h1) => (Outcome.returns (), h1)
      | (Outcome.returns (some retryErr), h1) => (Outcome.panics retryErr, h1) := rfl

/-- The typed `updateStatefulSet` in terms of its retry loop: same exchanges, and the
outcome of the loop decides the outcome of the function. -/
theorem typed_update_of_loop (release : retry.Release) (c : Transport appsv1.StatefulSet)
    (h run : History appsv1.StatefulSet) (out : Outcome (Option GoError))
    (hloop : retryLoop release (Typed.updateAttempt c) 5 h none = (out, h ++ run)) :
    Typed.updateStatefulSet release c h = (Typed.afterRetry out, h ++ run) := by
  rw [typed_updateStatefulSet_eq, hloop]
  cases out with
  | panics v => rfl
  | returns r => cases r <;> rfl

/-- The dynamic `updateStatefulSet` in terms of its retry loop. -/
theorem dynamic_update_of_loop (release : retry.Release) (c : Transport JsonMap) (h run : History JsonMap)
    (out : Outcome (Option GoError))
    (hloop : retryLoop release (Dynamic.updateAttempt c) 5 h none = (out, h ++ run)) :
    Dynamic.updateStatefulSet release c h = (Dynamic.afterRetry out, h ++ run) := by
  rw [dynamic_updateStatefulSet_eq, hloop]
  cases out with
  | panics v => rfl
  | returns r => cases r <;> rfl

/-- What a run of the typed `updateStatefulSet` is, for every release and transport: its
exchanges are gets and updates, nothing follows a non-conflict error, a failed get makes
the function panic, and so does a failed update whose error is neither a conflict nor
interrupted. -/
theorem typed_update_spec (release : retry.Release) (c : Transport appsv1.StatefulSet)
    (h : History appsv1.StatefulSet) :
    ∃ out run, Typed.updateStatefulSet release c h = (out, h ++ run) ∧
      fatalOnlyLast run = true ∧
      (∀ e ∈ run, e.isGet = true ∨ e.isUpdate = true) ∧
      (∀ name err, Exchange.Get name (.error err) ∈ run →
        out = Outcome.panics
          (GoError.errorf ("failed to get latest version of StatefulSet: " ++ err.Error))) ∧
      (∀ obj err, Exchange.Update obj (.error err) ∈ run →
        apierrors.IsConflict err = false → wait.Interrupted err = false →
        out = Outcome.panics (GoError.errorf ("update failed: " ++ err.Error))) := by
  obtain ⟨out, run, hloop, _, _, _, hfatal, hkind, hget, hupd⟩ :=
    typed_loop_spec release c 5 h none
  refine ⟨_, run, typed_update_of_loop release c h run out hloop, hfatal, hkind, ?_, ?_⟩
  · intro name err he
    rw [hget name err he]
    rfl
  · intro obj err he hc hni
    rw [hupd obj err he hc hni]
    rfl

/-- What a run of the dynamic `updateStatefulSet` is, for every release and transport:
its exchanges are gets and updates, nothing follows a non-conflict error, and a failed
get or update whose error is neither a conflict nor interrupted makes the function panic
with that error. -/
theorem dynamic_update_spec (release : retry.Release) (c : Transport JsonMap)
    (h : History JsonMap) :
    ∃ out run, Dynamic.updateStatefulSet release c h = (out, h ++ run) ∧
      fatalOnlyLast run = true ∧
      (∀ e ∈ run, e.isGet = true ∨ e.isUpdate = true) ∧
      (∀ name err, Exchange.Get name (.error err) ∈ run →
        apierrors.IsConflict err = false → wait.Interrupted err = false →
        out = Outcome.panics err) ∧
      (∀ obj err, Exchange.Update obj (.error err) ∈ run →
        apierrors.IsConflict err = false → wait.Interrupted err = false →
        out = Outcome.panics err) := by
  obtain ⟨out, run, hloop, _, _, _, hfatal, hkind, hget, hupd⟩ :=
    dynamic_loop_spec release c 5 h none
  refine ⟨_, run, dynamic_update_of_loop release c h run out hloop, hfatal, hkind, ?_, ?_⟩
  · intro name err he hc hni
    rw [hget name err he hc hni]
    rfl
  · intro obj err he hc hni
    rw [hupd obj err he hc hni]
    rfl

/-- C5 (amended): for every release of the retry helper and every transport, when a get
or an update of the update protocol replies with an error `err` other than Conflict:
the typed `updateStatefulSet` panics with a new error that keeps only the text, "failed
to get latest version of StatefulSet: " followed by the text of `err` for a get, and,
when `err` is not interrupted, "update failed: " followed by the text of `err` for an
update; the dynamic `updateStatefulSet` panics with `err` itself when `err` is not
interrupted.  An error is interrupted when `wait.Interrupted` recognises it (it wraps
`context.DeadlineExceeded` or `context.Canceled`); what is surfaced then is left open. -/
theorem C5_surfaced_error (release : retry.Release)
    (ct : Transport appsv1.StatefulSet) (ht : History appsv1.StatefulSet)
    (cd : Transport JsonMap) (hd : History JsonMap) :
    (∃ out run, Typed.updateStatefulSet release ct ht = (out, ht ++ run) ∧
        (∀ name err, Exchange.Get name (.error err) ∈ run →
          apierrors.IsConflict err = false →
          out = Outcome.panics
            (GoError.errorf ("failed to get latest version of StatefulSet: " ++ err.Error))) ∧
        (∀ obj err, Exchange.Update obj (.error err) ∈ run →
          apierrors.IsConflict err = false → wait.Interrupted err = false →
          out = Outcome.panics (GoError.errorf ("update failed: " ++ err.Error)))) ∧
    (∃ out run, Dynamic.updateStatefulSet release cd hd = (out, hd ++ run) ∧
        (∀ name err, Exchange.Get name (.error err) ∈ run →
          apierrors.IsConflict err = false → wait.Interrupted err = false →
          out = Outcome.panics err) ∧
        (∀ obj err, Exchange.Update obj (.error err) ∈ run →
          apierrors.IsConflict err = false → wait.Interrupted err = false →
          out = Outcome.panics err)) := by
  constructor
  · obtain ⟨out, run, hrun, _, _, hget, hupd⟩ := typed_update_spec release ct ht
    exact ⟨out, run, hrun, fun name err he _ => hget name err he, hupd⟩
  · obtain ⟨out, run, hrun, _, _, hget, hupd⟩ := dynamic_update_spec release cd hd
    exact ⟨out, run, hrun, hget, hupd⟩

/-- C6: in both variants, for every release of the retry helper and every transport,
every update of the protocol comes right after a successful get and submits the object
that get fetched with only the written fields changed: in the typed variant the metadata
(name, resourceVersion and the rest), the status and every field of the spec other than
the replica count are those of the fetched object; in the dynamic variant the `metadata`
entry, and the value at every path unrelated to `spec.replicas` and
`spec.template.spec.containers`, are those of the fetched document. -/
theorem C6_update_changes_only_written_fields (release : retry.Release)
    (ct : Transport appsv1.StatefulSet) (ht : History appsv1.StatefulSet)
    (cd : Transport JsonMap) (hd : History JsonMap) :
    (∃ out run, Typed.updateStatefulSet release ct ht = (out, ht ++ run) ∧
        updatesSubmit Typed.sameExceptReplicas none run) ∧
    (∃ out run, Dynamic.updateStatefulSet release cd hd = (out, hd ++ run) ∧
        updatesSubmit Dynamic.sameExceptWritten none run) := by
  constructor
  · obtain ⟨out, run, hloop, _, _, hsub, _⟩ := typed_loop_spec release ct 5 ht none
    refine ⟨_, run, typed_update_of_loop release ct ht run out hloop, ?_⟩
    refine updatesSubmit_mono _ _ ?_ run none hsub
    intro fetched obj hobj
    subst hobj
    simp [Typed.sameExceptReplicas, Typed.setReplicas]
  · obtain ⟨out, run, hloop, _, _, hsub, _⟩ := dynamic_loop_spec release cd 5 hd none
    refine ⟨_, run, dynamic_update_of_loop release cd hd run out hloop, ?_⟩
    exact updatesSubmit_mono _ _ (fun a b hab => dynamic_mutate_frame a b hab) run none hsub

/-! ## Runs against transports that answer updates with conflicts -/

theorem countGets_nil {α : Type} : countGets ([] : History α) = 0 := rfl

theorem countUpdates_nil {α : Type} : countUpdates ([] : History α) = 0 := rfl

theorem countGets_cons_get {α : Type} (name : String) (reply : Except GoError α)
    (rest : History α) :
    countGets (Exchange.Get name reply :: rest) = countGets rest + 1 := by
  simp [countGets, List.countP_cons, Exchange.isGet]

theorem countGets_cons_update {α : Type} (obj : α) (reply : Except GoError α)
    (rest : History α) :
    countGets (Exchange.Update obj reply :: rest) = countGets rest := by
  simp [countGets, List.countP_cons, Exchange.isGet]

theorem countUpdates_cons_get {α : Type} (name : String) (reply : Except GoError α)
    (rest : History α) :
    countUpdates (Exchange.Get name reply :: rest) = countUpdates rest := by
  simp [countUpdates, List.countP_cons, Exchange.isUpdate]

theorem countUpdates_cons_update {α : Type} (obj : α) (reply : Except GoError α)
    (rest : History α) :
    countUpdates (Exchange.Update obj reply :: rest) = countUpdates rest + 1 := by
  simp [countUpdates, List.countP_cons, Exchange.isUpdate]

theorem countGets_append {α : Type} (a b : History α) :
    countGets (a ++ b) = countGets a + countGets b := by
  simp [countGets, List.countP_append]

theorem countUpdates_append {α : Type} (a b : History α) :
    countUpdates (a ++ b) = countUpdates a + countUpdates b := by
  simp [countUpdates, List.countP_append]

theorem countUpdates_append_get {α : Type} (h : History α) (name : String)
    (reply : Except GoError α) :
    countUpdates (h ++ [Exchange.Get name reply]) = countUpdates h := by
  simp [countUpdates, List.countP_append, Exchange.isUpdate]

theorem countUpdates_append_get_update {α : Type} (h : History α) (name : String)
    (reply : Except GoError α) (obj : α) (reply2 : Except GoError α) :
    countUpdates (h ++ [Exchange.Get name reply, Exchange.Update obj reply2]) =
      countUpdates h + 1 := by
  simp [countUpdates, List.countP_append, List.countP_cons, Exchange.isUpdate]

/-- Typed loop, `k` conflicts then a success, with enough steps left. -/
theorem typed_loop_conflicts_then_ok (release : retry.Release) (c : Transport appsv1.StatefulSet) (k : Nat)
    (hget : ∀ h name, ∃ obj, c.Get h name = .ok obj)
    (hconf : ∀ h obj, countUpdates h < k →
      ∃ err, c.Update h obj = .error err ∧ apierrors.IsConflict err = true)
    (hok : ∀ h obj, countUpdates h = k → ∃ updated, c.Update h obj = .ok updated) :
    ∀ (n : Nat) (h : History appsv1.StatefulSet) (lastErr : Option GoError),
      countUpdates h ≤ k → k - countUpdates h < n →
      ∃ run, retryLoop release (Typed.updateAttempt c) n h lastErr = (Outcome.returns none, h ++ run) ∧
        countGets run = k - countUpdates h + 1 ∧ countUpdates run = k - countUpdates h + 1 := by
  intro n
  induction n with
  | zero => intro h lastErr _ hlt; omega
  | succ n ih =>
    intro h lastErr hle hlt
    obtain ⟨fetched, hg⟩ := hget h "book-server"
    have hcount := countUpdates_append_get h "book-server" (.ok fetched)
    rcases Nat.lt_or_ge (countUpdates h) k with hlt2 | hge
    · obtain ⟨err, hu, hc⟩ := hconf (h ++ [Exchange.Get "book-server" (.ok fetched)])
        (Typed.setReplicas fetched) (by omega)
      have hcount2 := countUpdates_append_get_update h "book-server" (.ok fetched)
        (Typed.setReplicas fetched) (.error err)
      obtain ⟨run, hrun, hg1, hu1⟩ := ih (h ++ [Exchange.Get "book-server" (.ok fetched),
        Exchange.Update (Typed.setReplicas fetched) (.error err)]) (some err)
        (by omega) (by omega)
      refine ⟨Exchange.Get "book-server" (.ok fetched) ::
        Exchange.Update (Typed.setReplicas fetched) (.error err) :: run, ?_, ?_, ?_⟩
      · rw [typed_loop_update_conflict release c n h lastErr fetched err hg hu hc, hrun]
        simp
      · rw [countGets_cons_get, countGets_cons_update, hg1]
        omega
      · rw [countUpdates_cons_get, countUpdates_cons_update, hu1]
        omega
    · obtain ⟨updated, hu⟩ := hok (h ++ [Exchange.Get "book-server" (.ok fetched)])
        (Typed.setReplicas fetched) (by omega)
      refine ⟨_, typed_loop_update_ok release c n h lastErr fetched updated hg hu, ?_, ?_⟩
      · rw [countGets_cons_get, countGets_cons_update, countGets_nil]
        omega
      · rw [countUpdates_cons_get, countUpdates_cons_update, countUpdates_nil]
        omega

/-- Dynamic loop, `k` conflicts then a success, with enough steps left. -/
theorem dynamic_loop_conflicts_then_ok (release : retry.Release) (c : Transport JsonMap) (k : Nat)
    (hget : ∀ h name, ∃ obj result, c.Get h name = .ok obj ∧ Dynamic.mutate obj = .ok result)
    (hconf : ∀ h obj, countUpdates h < k →
      ∃ err, c.Update h obj = .error err ∧ apierrors.IsConflict err = true)
    (hok : ∀ h obj, countUpdates h = k → ∃ updated, c.Update h obj = .ok updated) :
    ∀ (n : Nat) (h : History JsonMap) (lastErr : Option GoError),
      countUpdates h ≤ k → k - countUpdates h < n →
      ∃ run, retryLoop release (Dynamic.updateAttempt c) n h lastErr = (Outcome.returns none, h ++ run) ∧
        countGets run = k - countUpdates h + 1 ∧ countUpdates run = k - countUpdates h + 1 := by
  intro n
  induction n with
  | zero => intro h lastErr _ hlt; omega
  | succ n ih =>
    intro h lastErr hle hlt
    obtain ⟨fetched, result, hg, hm⟩ := hget h "book-server"
    have hcount := countUpdates_append_get h "book-server" (.ok fetched)
    rcases Nat.lt_or_ge (countUpdates h) k with hlt2 | hge
    · obtain ⟨err, hu, hc⟩ := hconf (h ++ [Exchange.Get "book-server" (.ok fetched)])
        result (by omega)
      have hcount2 := countUpdates_append_get_update h "book-server" (.ok fetched)
        result (.error err)
      obtain ⟨run, hrun, hg1, hu1⟩ := ih (h ++ [Exchange.Get "book-server" (.ok fetched),
        Exchange.Update result (.error err)]) (some err) (by omega) (by omega)
      refine ⟨Exchange.Get "book-server" (.ok fetched) ::
        Exchange.Update result (.error err) :: run, ?_, ?_, ?_⟩
      · rw [dynamic_loop_update_conflict release c n h lastErr fetched result err hg hm hu hc, hrun]
        simp
      · rw [countGets_cons_get, countGets_cons_update, hg1]
        omega
      · rw [countUpdates_cons_get, countUpdates_cons_update, hu1]
        omega
    · obtain ⟨updated, hu⟩ := hok (h ++ [Exchange.Get "book-server" (.ok fetched)])
        result (by omega)
      refine ⟨_, dynamic_loop_update_ok release c n h lastErr fetched result updated hg hm hu, ?_, ?_⟩
      · rw [countGets_cons_get, countGets_cons_update, countGets_nil]
        omega
      · rw [countUpdates_cons_get, countUpdates_cons_update, countUpdates_nil]
        omega

/-- Typed loop when every update conflicts: all the steps are used, the run ends with a
conflicting update, and the loop returns the error of that last update. -/
theorem typed_loop_exhausted (release : retry.Release) (c : Transport appsv1.StatefulSet)
    (hget : ∀ h name, ∃ obj, c.Get h name = .ok obj)
    (hconf : ∀ h obj, ∃ err, c.Update h obj = .error err ∧ apierrors.IsConflict err = true) :
    ∀ (n : Nat) (h : History appsv1.StatefulSet) (lastErr : Option GoError),
      ∃ pre fetched err, retryLoop release (Typed.updateAttempt c) (n + 1) h lastErr =
          (Outcome.returns (some err), h ++ (pre ++ [Exchange.Get "book-server" (.ok fetched),
            Exchange.Update (Typed.setReplicas fetched) (.error err)])) ∧
        apierrors.IsConflict err = true ∧ countGets pre = n ∧ countUpdates pre = n := by
  intro n
  induction n with
  | zero =>
    intro h lastErr
    obtain ⟨fetched, hg⟩ := hget h "book-server"
    obtain ⟨err, hu, hc⟩ := hconf (h ++ [Exchange.Get "book-server" (.ok fetched)])
      (Typed.setReplicas fetched)
    refine ⟨[], fetched, err, ?_, hc, rfl, rfl⟩
    rw [typed_loop_update_conflict release c 0 h lastErr fetched err hg hu hc, typed_loop_zero]
    simp
  | succ n ih =>
    intro h lastErr
    obtain ⟨fetched, hg⟩ := hget h "book-server"
    obtain ⟨err, hu, hc⟩ := hconf (h ++ [Exchange.Get "book-server" (.ok fetched)])
      (Typed.setReplicas fetched)
    obtain ⟨pre, fetched2, err2, hrun, hc2, hg1, hu1⟩ :=
      ih (h ++ [Exchange.Get "book-server" (.ok fetched),
        Exchange.Update (Typed.setReplicas fetched) (.error err)]) (some err)
    refine ⟨Exchange.Get "book-server" (.ok fetched) ::
      Exchange.Update (Typed.setReplicas fetched) (.error err) :: pre, fetched2, err2,
      ?_, hc2, ?_, ?_⟩
    · rw [typed_loop_update_conflict release c (n + 1) h lastErr fetched err hg hu hc, hrun]
      simp
    · rw [countGets_cons_get, countGets_cons_update, hg1]
    · rw [countUpdates_cons_get, countUpdates_cons_update, hu1]

/-- Dynamic loop when every update conflicts: all the steps are used, the run ends with a
conflicting update, and the loop returns the error of that last update. -/
theorem dynamic_loop_exhausted (release : retry.Release) (c : Transport JsonMap)
    (hget : ∀ h name, ∃ obj result, c.Get h name = .ok obj ∧ Dynamic.mutate obj = .ok result)
    (hconf : ∀ h obj, ∃ err, c.Update h obj = .error err ∧ apierrors.IsConflict err = true) :
    ∀ (n : Nat) (h : History JsonMap) (lastErr : Option GoError),
      ∃ pre fetched result err, retryLoop release (Dynamic.updateAttempt c) (n + 1) h lastErr =
          (Outcome.returns (some err), h ++ (pre ++ [Exchange.Get "book-server" (.ok fetched),
            Exchange.Update result (.error err)])) ∧
        Dynamic.mutate fetched = .ok result ∧
        apierrors.IsConflict err = true ∧ countGets pre = n ∧ countUpdates pre = n := by
  intro n
  induction n with
  | zero =>
    intro h lastErr
    obtain ⟨fetched, result, hg, hm⟩ := hget h "book-server"
    obtain ⟨err, hu, hc⟩ := hconf (h ++ [Exchange.Get "book-server" (.ok fetched)]) result
    refine ⟨[], fetched, result, err, ?_, hm, hc, rfl, rfl⟩
    rw [dynamic_loop_update_conflict release c 0 h lastErr fetched result err hg hm hu hc,
      dynamic_loop_zero]
    simp
  | succ n ih =>
    intro h lastErr
    obtain ⟨fetched, result, hg, hm⟩ := hget h "book-server"
    obtain ⟨err, hu, hc⟩ := hconf (h ++ [Exchange.Get "book-server" (.ok fetched)]) result
    obtain ⟨pre, fetched2, result2, err2, hrun, hm2, hc2, hg1, hu1⟩ :=
      ih (h ++ [Exchange.Get "book-server" (.ok fetched),
        Exchange.Update result (.error err)]) (some err)
    refine ⟨Exchange.Get "book-server" (.ok fetched) ::
      Exchange.Update result (.error err) :: pre, fetched2, result2, err2,
      ?_, hm2, hc2, ?_, ?_⟩
    · rw [dynamic_loop_update_conflict release c (n + 1) h lastErr fetched result err hg hm hu hc, hrun]
      simp
    · rw [countGets_cons_get, countGets_cons_update, hg1]
    · rw [countUpdates_cons_get, countUpdates_cons_update, hu1]

/-! ## Conflicts, retries and exhaustion -/

theorem defaultRetry_steps : retry.DefaultRetry.Steps.toNat = 5 := rfl

/-- C1 (amended): for every release of the retry helper, every `k` below the number of
steps of `retry.DefaultRetry` (5) and every transport in which every get succeeds (in the
dynamic variant: with a document on which both path writes succeed), the first `k`
updates reply Conflict and the next one succeeds, `updateStatefulSet`, started when no
update has been sent yet, returns normally after exactly `k + 1` gets and `k + 1`
updates; every update comes right after a successful get and submits the object fetched
by that get after the writes of the variant (typed: `Spec.Replicas` set to 1; dynamic:
`spec.replicas` set to 1 and `spec.template.spec.containers` replaced), so with replica
count 1. -/
theorem C1_conflicts_then_success (release : retry.Release) (k : Nat)
    (hk : k < retry.DefaultRetry.Steps.toNat)
    (ct : Transport appsv1.StatefulSet) (ht : History appsv1.StatefulSet)
    (cd : Transport JsonMap) (hd : History JsonMap)
    (ht0 : countUpdates ht = 0) (hd0 : countUpdates hd = 0)
    (hgetT : ∀ h name, ∃ obj, ct.Get h name = .ok obj)
    (hconfT : ∀ h obj, countUpdates h < k →
      ∃ err, ct.Update h obj = .error err ∧ apierrors.IsConflict err = true)
    (hokT : ∀ h obj, countUpdates h = k → ∃ updated, ct.Update h obj = .ok updated)
    (hgetD : ∀ h name, ∃ obj result, cd.Get h name = .ok obj ∧ Dynamic.mutate obj = .ok result)
    (hconfD : ∀ h obj, countUpdates h < k →
      ∃ err, cd.Update h obj = .error err ∧ apierrors.IsConflict err = true)
    (hokD : ∀ h obj, countUpdates h = k → ∃ updated, cd.Update h obj = .ok updated) :
    (∃ run, Typed.updateStatefulSet release ct ht = (Outcome.returns (), ht ++ run) ∧
        countGets run = k + 1 ∧ countUpdates run = k + 1 ∧
        updatesSubmit (fun fetched obj =>
          obj = Typed.setReplicas fetched ∧ obj.Spec.Replicas = some 1) none run) ∧
    (∃ run, Dynamic.updateStatefulSet release cd hd = (Outcome.returns (), hd ++ run) ∧
        countGets run = k + 1 ∧ countUpdates run = k + 1 ∧
        updatesSubmit (fun fetched obj =>
          Dynamic.mutate fetched = .ok obj ∧
            fieldAt obj "spec" ["replicas"] = some (Json.int64 1)) none run) := by
  rw [defaultRetry_steps] at hk
  constructor
  · obtain ⟨run, hrun, hg, hu⟩ :=
      typed_loop_conflicts_then_ok release ct k hgetT hconfT hokT 5 ht none (by omega) (by omega)
    obtain ⟨out2, run2, hrun2, _, _, hsub, _⟩ := typed_loop_spec release ct 5 ht none
    have hsame : run2 = run := by
      rw [hrun] at hrun2
      exact (List.append_cancel_left (Prod.mk.inj hrun2).2).symm
    subst hsame
    refine ⟨run2, typed_update_of_loop release ct ht run2 _ hrun, by omega, by omega, ?_⟩
    refine updatesSubmit_mono _ _ ?_ run2 none hsub
    intro fetched obj hobj
    subst hobj
    exact ⟨rfl, rfl⟩
  · obtain ⟨run, hrun, hg, hu⟩ :=
      dynamic_loop_conflicts_then_ok release cd k hgetD hconfD hokD 5 hd none (by omega) (by omega)
    obtain ⟨out2, run2, hrun2, _, _, hsub, _⟩ := dynamic_loop_spec release cd 5 hd none
    have hsame : run2 = run := by
      rw [hrun] at hrun2
      exact (List.append_cancel_left (Prod.mk.inj hrun2).2).symm
    subst hsame
    refine ⟨run2, dynamic_update_of_loop release cd hd run2 _ hrun, by omega, by omega, ?_⟩
    refine updatesSubmit_mono _ _ ?_ run2 none hsub
    intro fetched obj hobj
    exact ⟨hobj, (dynamic_mutate_reads_back fetched obj hobj).1⟩

/-- C1, at concrete transports: one forced conflict (`k = 1`), then success, for the
typed and the dynamic client. -/
theorem C1_conflicts_then_success_witness :
    (∃ run, Typed.updateStatefulSet retry.Release.interruptedAfterRetry (Typed.flakyClient 1) [] = (Outcome.returns (), [] ++ run) ∧
        countGets run = 1 + 1 ∧ countUpdates run = 1 + 1 ∧
        updatesSubmit (fun fetched obj =>
          obj = Typed.setReplicas fetched ∧ obj.Spec.Replicas = some 1) none run) ∧
    (∃ run, Dynamic.updateStatefulSet retry.Release.interruptedAfterRetry
          (Dynamic.flakyClient 1) [] =
          (Outcome.returns (), [] ++ run) ∧
        countGets run = 1 + 1 ∧ countUpdates run = 1 + 1 ∧
        updatesSubmit (fun fetched obj =>
          Dynamic.mutate fetched = .ok obj ∧
            fieldAt obj "spec" ["replicas"] = some (Json.int64 1)) none run) :=
  C1_conflicts_then_success retry.Release.interruptedAfterRetry 1 (by decide) (Typed.flakyClient 1) [] (Dynamic.flakyClient 1) []
    rfl rfl
    (fun _ _ => ⟨_, rfl⟩)
    (fun h obj hlt => ⟨conflictError, by simp [Typed.flakyClient]; omega, rfl⟩)
    (fun h obj heq => ⟨obj, by simp [Typed.flakyClient, heq]⟩)
    (fun _ _ => ⟨_, _, rfl, rfl⟩)
    (fun h obj hlt => ⟨conflictError, by simp [Dynamic.flakyClient]; omega, rfl⟩)
    (fun h obj heq => ⟨obj, by simp [Dynamic.flakyClient, heq]⟩)

/-- C1 as stated fails for the dynamic variant, at every release of the retry helper:
against a client whose every get succeeds (with a document whose `spec` is a string) and
whose every update would succeed (`k = 0`), `updateStatefulSet` makes one get and no
update, and panics with the path error. -/
theorem C1_counterexample :
    (∀ h name, ∃ obj, Dynamic.scalarSpecClient.Get h name = .ok obj) ∧
    (∀ h obj, ∃ updated, Dynamic.scalarSpecClient.Update h obj = .ok updated) ∧
    atEveryRelease (fun release =>
      Dynamic.updateStatefulSet release Dynamic.scalarSpecClient [] =
        (Outcome.panics (GoError.errorf
            "value cannot be set because .spec is not a map[string]interface\x7b\x7d"),
          [Exchange.Get "book-server" (.ok Dynamic.scalarSpecDocument)]) ∧
      countGets (Dynamic.updateStatefulSet release Dynamic.scalarSpecClient []).2 = 1 ∧
      countUpdates (Dynamic.updateStatefulSet release Dynamic.scalarSpecClient []).2 = 0) :=
  ⟨fun _ _ => ⟨_, rfl⟩, fun _ obj => ⟨obj, rfl⟩,
    ⟨rfl, rfl, rfl⟩, ⟨rfl, rfl, rfl⟩, ⟨rfl, rfl, rfl⟩⟩

/-- C2: for every release of the retry helper, every transport and every starting
history (in particular for a transport in which every get succeeds and every update
replies Conflict), `updateStatefulSet` (typed and dynamic) ends, and its run holds at
most as many gets and at most as many updates as `retry.DefaultRetry` has steps (5). -/
theorem C2_retry_is_bounded (release : retry.Release)
    (ct : Transport appsv1.StatefulSet) (ht : History appsv1.StatefulSet)
    (cd : Transport JsonMap) (hd : History JsonMap) :
    (∃ out run, Typed.updateStatefulSet release ct ht = (out, ht ++ run) ∧
        countGets run ≤ retry.DefaultRetry.Steps.toNat ∧
        countUpdates run ≤ retry.DefaultRetry.Steps.toNat) ∧
    (∃ out run, Dynamic.updateStatefulSet release cd hd = (out, hd ++ run) ∧
        countGets run ≤ retry.DefaultRetry.Steps.toNat ∧
        countUpdates run ≤ retry.DefaultRetry.Steps.toNat) := by
  rw [defaultRetry_steps]
  constructor
  · obtain ⟨out, run, hrun, hg, hu, _⟩ := typed_loop_spec release ct 5 ht none
    exact ⟨_, run, typed_update_of_loop release ct ht run out hrun, hg, hu⟩
  · obtain ⟨out, run, hrun, hg, hu, _⟩ := dynamic_loop_spec release cd 5 hd none
    exact ⟨_, run, dynamic_update_of_loop release cd hd run out hrun, hg, hu⟩

/-- C3 (amended): for every release of the retry helper and every transport in which
every get succeeds (in the dynamic variant: with a document on which both path writes
succeed) and every update replies Conflict, `updateStatefulSet` uses all 5 steps and then
panics; it returns no failure value.  The run ends with a conflicting update; the dynamic
variant panics with the Conflict error of that last update itself, the typed variant with
a new error whose text is "update failed: " followed by the text of that error. -/
theorem C3_exhaustion_panics (release : retry.Release)
    (ct : Transport appsv1.StatefulSet) (ht : History appsv1.StatefulSet)
    (cd : Transport JsonMap) (hd : History JsonMap)
    (hgetT : ∀ h name, ∃ obj, ct.Get h name = .ok obj)
    (hconfT : ∀ h obj, ∃ err, ct.Update h obj = .error err ∧ apierrors.IsConflict err = true)
    (hgetD : ∀ h name, ∃ obj result, cd.Get h name = .ok obj ∧ Dynamic.mutate obj = .ok result)
    (hconfD : ∀ h obj, ∃ err, cd.Update h obj = .error err ∧ apierrors.IsConflict err = true) :
    (∃ run obj err,
        Typed.updateStatefulSet release ct ht =
          (Outcome.panics (GoError.errorf ("update failed: " ++ err.Error)), ht ++ run) ∧
        run.getLast? = some (Exchange.Update obj (.error err)) ∧
        apierrors.IsConflict err = true ∧ countGets run = 5 ∧ countUpdates run = 5) ∧
    (∃ run obj err,
        Dynamic.updateStatefulSet release cd hd = (Outcome.panics err, hd ++ run) ∧
        run.getLast? = some (Exchange.Update obj (.error err)) ∧
        apierrors.IsConflict err = true ∧ countGets run = 5 ∧ countUpdates run = 5) := by
  constructor
  · obtain ⟨pre, fetched, err, hrun, hc, hg, hu⟩ := typed_loop_exhausted release ct hgetT hconfT 4 ht none
    refine ⟨_, Typed.setReplicas fetched, err, typed_update_of_loop release ct ht _ _ hrun, ?_, hc, ?_, ?_⟩
    · simp [List.getLast?_append]
    · rw [countGets_append, countGets_cons_get, countGets_cons_update, countGets_nil, hg]
    · rw [countUpdates_append, countUpdates_cons_get, countUpdates_cons_update,
        countUpdates_nil, hu]
  · obtain ⟨pre, fetched, result, err, hrun, _, hc, hg, hu⟩ :=
      dynamic_loop_exhausted release cd hgetD hconfD 4 hd none
    refine ⟨_, result, err, dynamic_update_of_loop release cd hd _ _ hrun, ?_, hc, ?_, ?_⟩
    · simp [List.getLast?_append]
    · rw [countGets_append, countGets_cons_get, countGets_cons_update, countGets_nil, hg]
    · rw [countUpdates_append, countUpdates_cons_get, countUpdates_cons_update,
        countUpdates_nil, hu]

/-- C3, at the always-conflicting typed and dynamic clients. -/
theorem C3_exhaustion_panics_witness :
    (∃ run obj err,
        Typed.updateStatefulSet retry.Release.interruptedAfterRetry Typed.conflictClient [] =
          (Outcome.panics (GoError.errorf ("update failed: " ++ err.Error)), [] ++ run) ∧
        run.getLast? = some (Exchange.Update obj (.error err)) ∧
        apierrors.IsConflict err = true ∧ countGets run = 5 ∧ countUpdates run = 5) ∧
    (∃ run obj err,
        Dynamic.updateStatefulSet retry.Release.interruptedAfterRetry Dynamic.conflictClient [] =
          (Outcome.panics err, [] ++ run) ∧
        run.getLast? = some (Exchange.Update obj (.error err)) ∧
        apierrors.IsConflict err = true ∧ countGets run = 5 ∧ countUpdates run = 5) :=
  C3_exhaustion_panics retry.Release.interruptedAfterRetry Typed.conflictClient []
    Dynamic.conflictClient []
    (fun _ _ => ⟨_, rfl⟩) (fun _ _ => ⟨conflictError, rfl, rfl⟩)
    (fun _ _ => ⟨_, _, rfl, rfl⟩) (fun _ _ => ⟨conflictError, rfl, rfl⟩)

/-- C3 as stated fails, at every release of the retry helper: against clients whose every
get succeeds and whose every update replies Conflict, neither variant returns a failure
value.  Both panic; the value the dynamic variant panics with is a Conflict error (the
one the last update replied), and the typed variant panics with a text-only error made
from it. -/
theorem C3_counterexample :
    apierrors.IsConflict (GoError.status Reason.Conflict "the object has been modified") = true ∧
    atEveryRelease (fun release =>
      (Typed.updateStatefulSet release Typed.conflictClient []).1 =
        Outcome.panics (GoError.errorf "update failed: the object has been modified") ∧
      (Dynamic.updateStatefulSet release Dynamic.conflictClient []).1 =
        Outcome.panics (GoError.status Reason.Conflict "the object has been modified") ∧
      (∀ v, (Typed.updateStatefulSet release Typed.conflictClient []).1 ≠ Outcome.returns v) ∧
      (∀ v, (Dynamic.updateStatefulSet release Dynamic.conflictClient []).1 ≠
        Outcome.returns v)) := by
  have key : ∀ release,
      (Typed.updateStatefulSet release Typed.conflictClient []).1 =
        Outcome.panics (GoError.errorf "update failed: the object has been modified") ∧
      (Dynamic.updateStatefulSet release Dynamic.conflictClient []).1 =
        Outcome.panics (GoError.status Reason.Conflict "the object has been modified") ∧
      (∀ v, (Typed.updateStatefulSet release Typed.conflictClient []).1 ≠ Outcome.returns v) ∧
      (∀ v, (Dynamic.updateStatefulSet release Dynamic.conflictClient []).1 ≠
        Outcome.returns v) := by
    intro release
    have ht : (Typed.updateStatefulSet release Typed.conflictClient []).1 =
        Outcome.panics (GoError.errorf "update failed: the object has been modified") := by
      cases release <;> rfl
    have hd : (Dynamic.updateStatefulSet release Dynamic.conflictClient []).1 =
        Outcome.panics (GoError.status Reason.Conflict "the object has been modified") := by
      cases release <;> rfl
    refine ⟨ht, hd, ?_, ?_⟩
    · intro v hv
      rw [ht] at hv
      cases hv
    · intro v hv
      rw [hd] at hv
      cases hv
  exact ⟨rfl, key _, key _, key _⟩

/-! ## The create, update, delete sequence of `main` -/

/-- C8 as stated fails: the typed and the dynamic "book-server" objects do not expose the
same ports (typed: container port 3000, no name, no protocol; dynamic: container port 80,
name "http", protocol "TCP"), so they are not the same logical object. -/
theorem C8_counterexample :
    (Typed.view Typed.statefulSet).map (fun v => v.ports) =
      some [{ name := "", protocol := "", containerPort := 3000 }] ∧
    (Dynamic.view Dynamic.statefulSet).map (fun v => v.ports) =
      some [{ name := "http", protocol := "TCP", containerPort := 80 }] ∧
    Typed.view Typed.statefulSet ≠ Dynamic.view Dynamic.statefulSet := by
  refine ⟨rfl, rfl, ?_⟩
  decide

/-- C8 (amended): the typed and the dynamic "book-server" objects agree on the name, the
replica count (2), the service name, the selector, the template labels, and on the name,
image, image-pull policy and startup arguments of their single container. -/
theorem C8_same_fields_except_ports :
    ∃ vt vd, Typed.view Typed.statefulSet = some vt ∧
      Dynamic.view Dynamic.statefulSet = some vd ∧
      vt.name = vd.name ∧ vt.name = "book-server" ∧
      vt.replicas = vd.replicas ∧ vt.replicas = some 2 ∧
      vt.serviceName = vd.serviceName ∧ vt.selector = vd.selector ∧
      vt.templateLabels = vd.templateLabels ∧ vt.containerName = vd.containerName ∧
      vt.image = vd.image ∧ vt.imagePullPolicy = vd.imagePullPolicy ∧ vt.args = vd.args :=
  ⟨_, _, rfl, rfl, rfl, rfl, rfl, rfl, rfl, rfl, rfl, rfl, rfl, rfl, rfl⟩

/-! ## Errors surfaced by the typed variant, path errors of the dynamic variant -/

/-- C5 as stated fails for the typed variant, at every release of the retry helper: when
get replies NotFound, respectively update replies Unauthorized, the typed
`updateStatefulSet` panics with a new text-only error, not with the error the transport
replied. -/
theorem C5_counterexample :
    Typed.notFoundClient.Get [] "book-server" =
      .error (GoError.status Reason.NotFound "book-server not found") ∧
    atEveryRelease (fun release =>
      (Typed.updateStatefulSet release Typed.notFoundClient []).1 =
        Outcome.panics (GoError.errorf
          "failed to get latest version of StatefulSet: book-server not found") ∧
      (Typed.updateStatefulSet release Typed.notFoundClient []).1 ≠
        Outcome.panics (GoError.status Reason.NotFound "book-server not found") ∧
      (Typed.updateStatefulSet release Typed.unauthorizedClient []).1 =
        Outcome.panics (GoError.errorf "update failed: access denied") ∧
      (Typed.updateStatefulSet release Typed.unauthorizedClient []).1 ≠
        Outcome.panics (GoError.status Reason.Unauthorized "access denied")) := by
  have key : ∀ release,
      (Typed.updateStatefulSet release Typed.notFoundClient []).1 =
        Outcome.panics (GoError.errorf
          "failed to get latest version of StatefulSet: book-server not found") ∧
      (Typed.updateStatefulSet release Typed.notFoundClient []).1 ≠
        Outcome.panics (GoError.status Reason.NotFound "book-server not found") ∧
      (Typed.updateStatefulSet release Typed.unauthorizedClient []).1 =
        Outcome.panics (GoError.errorf "update failed: access denied") ∧
      (Typed.updateStatefulSet release Typed.unauthorizedClient []).1 ≠
        Outcome.panics (GoError.status Reason.Unauthorized "access denied") := by
    intro release
    have h1 : (Typed.updateStatefulSet release Typed.notFoundClient []).1 =
        Outcome.panics (GoError.errorf
          "failed to get latest version of StatefulSet: book-server not found") := by
      cases release <;> rfl
    have h2 : (Typed.updateStatefulSet release Typed.unauthorizedClient []).1 =
        Outcome.panics (GoError.errorf "update failed: access denied") := by
      cases release <;> rfl
    refine ⟨h1, ?_, h2, ?_⟩
    · rw [h1]
      intro h
      cases h
    · rw [h2]
      intro h
      cases h
  exact ⟨rfl, key _, key _, key _⟩

theorem dynamic_mutate_path_error (fetched : JsonMap) (field : String) (rest : List String)
    (v : Json)
    (hnode : (field, rest) ∈
      [("spec", []), ("spec", ["template"]), ("spec", ["template", "spec"])])
    (hval : fieldAt fetched field rest = some v) (hnotmap : v.isMap = false) :
    Dynamic.mutate fetched = .error (Dynamic.pathError (field :: rest)) := by
  have hne1 : ("template" : String) ≠ "replicas" := by decide
  simp only [List.mem_cons, Prod.mk.injEq, List.mem_singleton, List.not_mem_nil,
    or_false] at hnode
  rcases hnode with ⟨rfl, rfl⟩ | ⟨rfl, rfl⟩ | ⟨rfl, rfl⟩
  · simp only [fieldAt] at hval
    cases v <;>
      simp_all [Dynamic.mutate, unstructured.SetNestedField,
        unstructured.setNestedFieldNoCopy, Dynamic.pathError, Json.isMap]
  · unfold fieldAt at hval
    split at hval
    · rename_i sub hl
      simp only [fieldAt] at hval
      cases v <;>
        simp_all [Dynamic.mutate, unstructured.SetNestedField,
          unstructured.setNestedFieldNoCopy, Dynamic.pathError, Json.isMap,
          jsonMap_lookup_store_same, jsonMap_lookup_store_ne _ _ _ _ hne1]
    · simp at hval
  · unfold fieldAt at hval
    split at hval
    · rename_i sub hl
      unfold fieldAt at hval
      split at hval
      · rename_i sub2 hl2
        simp only [fieldAt] at hval
        cases v <;>
          simp_all [Dynamic.mutate, unstructured.SetNestedField,
            unstructured.setNestedFieldNoCopy, Dynamic.pathError, Json.isMap,
            jsonMap_lookup_store_same, jsonMap_lookup_store_ne _ _ _ _ hne1]
      · simp at hval
    · simp at hval

/-- C10: in the dynamic `updateStatefulSet`, at every release of the retry helper, when
the get of the first attempt fetches a document in which `spec`, `spec.template` or
`spec.template.spec` is present but is not a map, the writes return the path error for
that node, no update request is sent, there is no retry (the run is that single get), and
`updateStatefulSet` panics with that path error. -/
theorem C10_path_error_is_not_retried (release : retry.Release) (c : Transport JsonMap)
    (h : History JsonMap)
    (fetched : JsonMap) (field : String) (rest : List String) (v : Json)
    (hget : c.Get h "book-server" = .ok fetched)
    (hnode : (field, rest) ∈
      [("spec", []), ("spec", ["template"]), ("spec", ["template", "spec"])])
    (hval : fieldAt fetched field rest = some v) (hnotmap : v.isMap = false) :
    Dynamic.mutate fetched = .error (Dynamic.pathError (field :: rest)) ∧
    Dynamic.updateStatefulSet release c h =
      (Outcome.panics (Dynamic.pathError (field :: rest)),
        h ++ [Exchange.Get "book-server" (.ok fetched)]) ∧
    countGets [Exchange.Get "book-server" (Except.ok fetched)] = 1 ∧
    countUpdates [Exchange.Get "book-server" (Except.ok fetched)] = 0 := by
  have hm := dynamic_mutate_path_error fetched field rest v hnode hval hnotmap
  refine ⟨hm, ?_, rfl, rfl⟩
  exact dynamic_update_of_loop release c h _ _
    (dynamic_loop_mutate_error release c 4 h none fetched _ hget hm)

/-- C10, at a client whose get fetches a document whose `spec` is a string. -/
theorem C10_path_error_is_not_retried_witness :
    Dynamic.mutate Dynamic.scalarSpecDocument = .error (Dynamic.pathError ["spec"]) ∧
    Dynamic.updateStatefulSet retry.Release.interruptedAfterRetry Dynamic.scalarSpecClient [] =
      (Outcome.panics (Dynamic.pathError ["spec"]),
        [] ++ [Exchange.Get "book-server" (.ok Dynamic.scalarSpecDocument)]) ∧
    countGets [Exchange.Get "book-server" (Except.ok Dynamic.scalarSpecDocument)] = 1 ∧
    countUpdates [Exchange.Get "book-server" (Except.ok Dynamic.scalarSpecDocument)] = 0 :=
  C10_path_error_is_not_retried retry.Release.interruptedAfterRetry Dynamic.scalarSpecClient []
    Dynamic.scalarSpecDocument
    "spec" [] (Json.string "opaque") rfl (by simp) rfl rfl

/-! ## Two runs in a row against a control plane with no other writer -/

theorem versioning_stored_nil {α : Type} (init : α) :
    Versioning.stored init ([] : History α) = init := rfl

theorem versioning_stored_append_get {α : Type} (init : α) (h : History α) (name : String)
    (reply : Except GoError α) :
    Versioning.stored init (h ++ [Exchange.Get name reply]) = Versioning.stored init h := by
  simp [Versioning.stored, List.foldl_append]

theorem versioning_stored_append_update {α : Type} (init : α) (h : History α) (obj acc : α) :
    Versioning.stored init (h ++ [Exchange.Update obj (.ok acc)]) = acc := by
  simp [Versioning.stored, List.foldl_append]

/-- One run of the typed update against the single-writer control plane: one get, one
accepted update of the stored object with the replica count set. -/
theorem typed_single_writer_run (release : retry.Release) (next : String → String) (init : appsv1.StatefulSet)
    (h : History appsv1.StatefulSet) :
    Typed.updateStatefulSet release ((Typed.versioning next).client init) h =
      (Outcome.returns (),
        h ++ [Exchange.Get "book-server" (.ok (Versioning.stored init h)),
          Exchange.Update (Typed.setReplicas (Versioning.stored init h))
            (.ok ((Typed.versioning next).stamp
              (Typed.setReplicas (Versioning.stored init h))))]) := by
  refine typed_update_of_loop release _ h _ (Outcome.returns none) ?_
  refine typed_loop_update_ok release _ 4 h none _ _ rfl ?_
  simp [Versioning.client, versioning_stored_append_get, Typed.versioning, Typed.setReplicas]

theorem dynamic_stamp_keeps_written (next : String → String) (obj : JsonMap)
    (h1 : fieldAt obj "spec" ["replicas"] = some (Json.int64 1))
    (h2 : fieldAt obj "spec" ["template", "spec", "containers"] = some Dynamic.containers) :
    Dynamic.mutate ((Dynamic.versioning next).stamp obj) =
      .ok ((Dynamic.versioning next).stamp obj) := by
  simp only [Dynamic.versioning]
  split
  · rename_i stamped hs
    apply dynamic_mutate_of_fields
    · rw [setNestedFieldNoCopy_frame _ _ _ _ _ _ hs "spec" ["replicas"]
        (by simp [unrelatedPaths, List.cons_prefix_cons])]
      exact h1
    · rw [setNestedFieldNoCopy_frame _ _ _ _ _ _ hs "spec" ["template", "spec", "containers"]
        (by simp [unrelatedPaths, List.cons_prefix_cons])]
      exact h2
  · exact dynamic_mutate_of_fields obj h1 h2

/-- One run of the dynamic update against the single-writer control plane, when the
writes succeed on the stored document. -/
theorem dynamic_single_writer_run (release : retry.Release) (next : String → String) (init : JsonMap)
    (h : History JsonMap) (result : JsonMap)
    (hm : Dynamic.mutate (Versioning.stored init h) = .ok result) :
    Dynamic.updateStatefulSet release ((Dynamic.versioning next).client init) h =
      (Outcome.returns (),
        h ++ [Exchange.Get "book-server" (.ok (Versioning.stored init h)),
          Exchange.Update result (.ok ((Dynamic.versioning next).stamp result))]) := by
  refine dynamic_update_of_loop release _ h _ (Outcome.returns none) ?_
  refine dynamic_loop_update_ok release _ 4 h none _ result _ rfl hm ?_
  have hv := (dynamic_mutate_frame _ _ hm).2.1
  simp [Versioning.client, versioning_stored_append_get, Dynamic.versioning, hv]

theorem dynamic_stamp_frame (next : String → String) (obj : JsonMap) (field : String)
    (rest : List String) (hun : unrelatedPaths (field :: rest) ["metadata", "resourceVersion"]) :
    fieldAt ((Dynamic.versioning next).stamp obj) field rest = fieldAt obj field rest := by
  simp only [Dynamic.versioning]
  split
  · rename_i stamped hs
    exact setNestedFieldNoCopy_frame _ _ _ _ _ _ hs field rest hun
  · rfl

/-- C9: at every release of the retry helper, the mutation of `updateStatefulSet` is
idempotent in both variants (typed: setting the replica count twice is setting it once;
dynamic: when the two writes succeed on a document, they succeed on the result and leave
it as it is).  Against a control plane with no other writer, holding any object, two runs
in a row behave as follows.  Typed: the first run stores the fetched object with the
replica count set (under a new resourceVersion); the second run fetches that stored
object and submits it unchanged, and the object stored afterwards differs from it only in
its resourceVersion.  Dynamic: the same whenever the two writes succeed on the initial
document; when they fail, both runs panic with that error after a single get and submit
nothing. -/
theorem C9_second_run_changes_nothing (release : retry.Release) (next : String → String)
    (initT : appsv1.StatefulSet) (initD : JsonMap) :
    (∀ obj, Typed.setReplicas (Typed.setReplicas obj) = Typed.setReplicas obj) ∧
    (∀ obj result, Dynamic.mutate obj = .ok result → Dynamic.mutate result = .ok result) ∧
    (∃ stored1 stored2 run1,
      stored1 = (Typed.versioning next).stamp (Typed.setReplicas initT) ∧
      stored2 = (Typed.versioning next).stamp stored1 ∧
      run1 = [Exchange.Get "book-server" (.ok initT),
        Exchange.Update (Typed.setReplicas initT) (.ok stored1)] ∧
      Typed.updateStatefulSet release ((Typed.versioning next).client initT) [] =
        (Outcome.returns (), run1) ∧
      Versioning.stored initT run1 = stored1 ∧
      Typed.updateStatefulSet release ((Typed.versioning next).client initT) run1 =
        (Outcome.returns (),
          run1 ++ [Exchange.Get "book-server" (.ok stored1),
            Exchange.Update stored1 (.ok stored2)]) ∧
      stored2.Spec = stored1.Spec ∧ stored2.Status = stored1.Status ∧
      { stored2.ObjectMeta with ResourceVersion := stored1.ObjectMeta.ResourceVersion } =
        stored1.ObjectMeta) ∧
    (∀ result, Dynamic.mutate initD = .ok result →
      ∃ stored1 stored2 run1,
        stored1 = (Dynamic.versioning next).stamp result ∧
        stored2 = (Dynamic.versioning next).stamp stored1 ∧
        run1 = [Exchange.Get "book-server" (.ok initD),
          Exchange.Update result (.ok stored1)] ∧
        Dynamic.updateStatefulSet release ((Dynamic.versioning next).client initD) [] =
          (Outcome.returns (), run1) ∧
        Versioning.stored initD run1 = stored1 ∧
        Dynamic.updateStatefulSet release ((Dynamic.versioning next).client initD) run1 =
          (Outcome.returns (),
            run1 ++ [Exchange.Get "book-server" (.ok stored1),
              Exchange.Update stored1 (.ok stored2)]) ∧
        ∀ (field : String) (rest : List String),
          unrelatedPaths (field :: rest) ["metadata", "resourceVersion"] →
          fieldAt stored2 field rest = fieldAt stored1 field rest) ∧
    (∀ err, Dynamic.mutate initD = .error err →
      Dynamic.updateStatefulSet release ((Dynamic.versioning next).client initD) [] =
        (Outcome.panics err, [Exchange.Get "book-server" (.ok initD)]) ∧
      Dynamic.updateStatefulSet release ((Dynamic.versioning next).client initD)
          [Exchange.Get "book-server" (.ok initD)] =
        (Outcome.panics err,
          [Exchange.Get "book-server" (.ok initD), Exchange.Get "book-server" (.ok initD)])) := by
  refine ⟨fun obj => rfl, dynamic_mutate_idempotent, ?_, ?_, ?_⟩
  · refine ⟨_, _, _, rfl, rfl, rfl, ?_, ?_, ?_, rfl, rfl, rfl⟩
    · exact typed_single_writer_run release next initT []
    · rfl
    · have h := typed_single_writer_run release next initT
        [Exchange.Get "book-server" (.ok initT),
          Exchange.Update (Typed.setReplicas initT)
            (.ok ((Typed.versioning next).stamp (Typed.setReplicas initT)))]
      exact h
  · intro result hm
    have hread := dynamic_mutate_reads_back initD result hm
    have hstamp := dynamic_stamp_keeps_written next result hread.1 hread.2
    refine ⟨_, _, _, rfl, rfl, rfl, ?_, ?_, ?_, ?_⟩
    · exact dynamic_single_writer_run release next initD [] result hm
    · rfl
    · exact dynamic_single_writer_run release next initD
        [Exchange.Get "book-server" (.ok initD),
          Exchange.Update result (.ok ((Dynamic.versioning next).stamp result))]
        ((Dynamic.versioning next).stamp result) hstamp
    · intro field rest hun
      exact dynamic_stamp_frame next _ field rest hun
  · intro err hm
    constructor
    · exact dynamic_update_of_loop release _ [] _ _
        (dynamic_loop_mutate_error release _ 4 [] none initD err rfl hm)
    · exact dynamic_update_of_loop release _ [Exchange.Get "book-server" (.ok initD)] _ _
        (dynamic_loop_mutate_error release _ 4 [Exchange.Get "book-server" (.ok initD)] none initD err
          rfl hm)
